import Mathlib

/-!
# CDP WebSocket shim — verification development

Shallow embedding of the Chrome-DevTools-Protocol translation server
(`src/logging.test.ts`): the per-connection `CDPSession` state, the command
dispatcher `handleCDPMethod`, the per-domain handlers, and the shared-secret
gate `timingSafeEqual` / upgrade check.

Modelling conventions:
* JavaScript `Map`s become association lists with first-match lookup
  (`List.lookup`); `Map.set` conses a fresh binding, `Map.delete` filters.
* The puppeteer backend is external I/O; its answers (query hits, evaluation
  outcomes, fresh UUIDs, page content) are supplied by an `Oracle` passed to
  each step, and the calls the shim makes into the backend are recorded as a
  `BackendOp` trace.
* Fallible JSON parsing of an inbound text is embedded as `Option CDPRequest`:
  `none` is a text that failed `JSON.parse`.
* JavaScript string falsiness (`!s` true for `undefined` and `""`) is modelled
  by `truthy? : Option String → Bool`.
-/

namespace CDP

/-- JS string truthiness for optional string parameters: `undefined` and the
empty string are falsy. -/
def truthy? : Option String → Bool
  | none => false
  | some s => !(s == "")

/-- First-match association-list lookup, mirroring `Map.get`. -/
abbrev mlookup {α β : Type} [BEq α] (m : List (α × β)) (k : α) : Option β :=
  List.lookup k m

/-- `Map.set`: a fresh binding shadows any older one. -/
def mset {α β : Type} (m : List (α × β)) (k : α) (v : β) : List (α × β) :=
  (k, v) :: m

/-- `Map.delete`: drop every binding of the key. -/
def mdelete {α β : Type} [BEq α] (m : List (α × β)) (k : α) : List (α × β) :=
  m.filter (fun p => !(p.1 == k))

/-- Values produced by in-page script evaluation, abstracted. -/
inductive JSVal where
  | undefined
  | null
  | bool (b : Bool)
  | num (n : Int)
  | str (s : String)
  | arr (len : Nat)
  | obj (props : List (String × JSVal))

/-- `typeof v` in JavaScript. -/
def jsTypeof : JSVal → String
  | .undefined => "undefined"
  | .null => "object"
  | .bool _ => "boolean"
  | .num _ => "number"
  | .str _ => "string"
  | .arr _ => "object"
  | .obj _ => "object"

/-- `result !== null && typeof result === 'object'` — the condition under which
`Runtime.evaluate` / `Runtime.callFunctionOn` allocate an object id. -/
def isJSObject : JSVal → Bool
  | .arr _ => true
  | .obj _ => true
  | _ => false

/-- `String(v)`, coarsely. -/
def jsString : JSVal → String
  | .undefined => "undefined"
  | .null => "null"
  | .bool true => "true"
  | .bool false => "false"
  | .num n => toString n
  | .str s => s
  | .arr _ => ""
  | .obj _ => "[object Object]"

/-- `v?.constructor?.name`, coarsely. -/
def jsClassName : JSVal → Option String
  | .undefined => none
  | .null => none
  | .bool _ => some "Boolean"
  | .num _ => some "Number"
  | .str _ => some "String"
  | .arr _ => some "Array"
  | .obj _ => some "Object"

/-- Outcome of running script in the page: a value, or a thrown error whose
message the `catch` block extracts. -/
inductive EvalOutcome where
  | ok (v : JSVal)
  | threw (msg : String)

/-- A CDP `RemoteObject` as assembled by the Runtime handlers. -/
structure RemoteObject where
  type : String
  subtype : Option String
  className : Option String
  value : Option JSVal
  objectId : Option String
  description : Option String

/-- One property descriptor in a `Runtime.getProperties` result. -/
structure PropDesc where
  name : String
  valueType : String
  writable : Bool
  configurable : Bool
  enumerable : Bool
  isOwn : Bool

/-- Result payloads the handlers return (the `result` member of a response
frame).  Shapes that no claim inspects are collapsed into `other`. -/
inductive CDPResult where
  | empty
  | nodeId (n : Nat)
  | nodeIds (ns : List Nat)
  | document (rootNodeId : Nat)
  | outerHTML (html : String)
  | attributes (attrs : List String)
  | navigate (frameId : String) (loaderId : String) (errorText : Option String)
  | evalResult (r : RemoteObject)
  | exceptionDetails (exceptionId : Nat) (text : String)
  | properties (props : List PropDesc)
  | targetId (t : String)
  | sessionId (t : Option String)
  | success (b : Bool)
  | identifier (s : String)
  | body (data : String) (base64Encoded : Bool)
  | other

/-- Parameters of the server-to-client events the shim emits. -/
inductive EventParams where
  | targetCreated (targetId : String) (title : String) (url : String)
  | targetDestroyed (targetId : String)
  | frameNavigated (frameId : String) (url : String)
  | loadEventFired
  | requestPaused (requestId : String) (url : String) (frameId : String)

/-- One outbound wire frame: response, error, or event. -/
inductive Frame where
  | response (id : Int) (result : CDPResult)
  | error (id : Int) (code : Int) (message : String)
  | event (method : String) (params : EventParams)

/-- Calls the shim makes into the puppeteer backend. -/
inductive BackendOp where
  | newPage
  | goto (url : String)
  | closePage (targetId : String)
  | closeBrowser
  | continueRequest (requestId : String) (withOverrides : Bool)
  | respond (requestId : String) (status : Option Int)
  | abort (requestId : String) (reason : String)
  | pageOp

/-- A `{urlPattern, requestStage}` filter from `Fetch.enable`. -/
structure FetchPattern where
  urlPattern : Option String
  requestStage : Option String

/-- An intercepted request parked in `pendingRequests`; the raw puppeteer
request handle is opaque. -/
structure ParkedRequest where
  url : String
  method : String

/-- An argument to `Runtime.callFunctionOn`. -/
structure CallArg where
  value : Option JSVal := none
  objectId : Option String := none

/-- The decoded `params` object of an inbound frame; absent members are
`none` (JS `undefined`). -/
structure Params where
  targetId : Option String := none
  url : Option String := none
  selector : Option String := none
  nodeId : Option Nat := none
  name : Option String := none
  value : Option String := none
  files : Option (List String) := none
  depth : Option Nat := none
  expression : Option String := none
  functionDeclaration : Option String := none
  arguments : Option (List CallArg) := none
  returnByValue : Option Bool := none
  awaitPromise : Option Bool := none
  objectId : Option String := none
  ownProperties : Option Bool := none
  html : Option String := none
  source : Option String := none
  identifier : Option String := none
  accept : Option Bool := none
  promptText : Option String := none
  enabled : Option Bool := none
  entryId : Option Nat := none
  headers : Option (List (String × String)) := none
  patterns : Option (List FetchPattern) := none
  requestId : Option String := none
  method? : Option String := none
  postData : Option String := none
  responseCode : Option Int := none
  responseHeaders : Option (List (String × String)) := none
  body : Option String := none
  errorReason : Option String := none

/-- An inbound command frame after successful `JSON.parse`. -/
structure CDPRequest where
  id : Int
  method : String
  params : Params := {}

/-- Answers of the external puppeteer backend for one step: fresh UUIDs,
query results, evaluation outcomes, page snapshots. -/
structure Oracle where
  uuid : String := "uuid"
  navOk : Bool := true
  pageUrl : String := "about:blank"
  pageTitle : String := ""
  pageContent : String := "<html></html>"
  qsFound : String → Bool := fun _ => false
  qsCount : String → Nat := fun _ => 0
  evalOutcome : String → EvalOutcome := fun _ => .ok .undefined
  callOutcome : String → List JSVal → EvalOutcome := fun _ _ => .ok .undefined
  outerHTMLOf : String → String := fun _ => ""
  attrsOf : String → List String := fun _ => []
  boxFound : String → Bool := fun _ => true
  regexTest : String → String → Bool := fun _ _ => false

/-- Session state of one CDP WebSocket connection (`CDPSession` in the
source).  Page handles are opaque backend references, modelled as `Unit`.
`interceptPatterns` holds the pattern list captured by the request listener
that `Fetch.enable` registers (a closure variable in the source). -/
structure CDPSession where
  pages : List (String × Unit)
  defaultTargetId : String
  nodeIdCounter : Nat
  nodeMap : List (Nat × String)
  objectIdCounter : Nat
  objectMap : List (String × JSVal)
  scriptsToEvaluateOnNewDocument : List (String × String)
  extraHTTPHeaders : List (String × String)
  requestInterceptionEnabled : Bool
  interceptPatterns : Option (List FetchPattern)
  pendingRequests : List (String × ParkedRequest)

/-- The session built by `initCDPSession` right after browser launch: one
default page under a fresh target id, both counters at 1, all maps empty. -/
def initSession (targetId : String) : CDPSession where
  pages := [(targetId, ())]
  defaultTargetId := targetId
  nodeIdCounter := 1
  nodeMap := []
  objectIdCounter := 1
  objectMap := []
  scriptsToEvaluateOnNewDocument := []
  extraHTTPHeaders := []
  requestInterceptionEnabled := false
  interceptPatterns := none
  pendingRequests := []

/-- The `Target.targetCreated` event `initCDPSession` emits on construction. -/
def initEvent (targetId : String) : Frame :=
  .event "Target.targetCreated" (.targetCreated targetId "" "about:blank")

/-!
## Shared-secret gate

`timingSafeEqual` compares two strings; on equal lengths it walks the whole
string accumulating `result |= a.charCodeAt(i) ^ b.charCodeAt(i)`, with no
early exit.  The loop body and its iteration count are modelled together by
`tseLoop`, which returns the accumulator and the number of iterations.
-/

/-- The comparison loop over code units: returns the final accumulator and the
number of executed iterations. -/
def tseLoop : List Nat → List Nat → Nat → Nat × Nat
  | x :: xs, y :: ys, r =>
    let rest := tseLoop xs ys (r ||| (x ^^^ y))
    (rest.1, rest.2 + 1)
  | _, _, r => (r, 0)

/-- Character codes of a string, mirroring `charCodeAt` over the whole
string. -/
def codeUnits (s : String) : List Nat :=
  s.data.map Char.toNat

/-- `timingSafeEqual` from the source: length mismatch rejects immediately;
otherwise the XOR-fold over all positions must be zero. -/
def timingSafeEqual (a b : String) : Bool :=
  if a.length != b.length then false
  else (tseLoop (codeUnits a) (codeUnits b) 0).1 == 0

/-- Number of loop iterations `timingSafeEqual` executes. -/
def tseIterations (a b : String) : Nat :=
  if a.length != b.length then 0
  else (tseLoop (codeUnits a) (codeUnits b) 0).2

/-- Outcome of the WebSocket upgrade checks on `GET /cdp`. -/
inductive UpgradeOutcome where
  | notConfigured
  | unauthorized
  | browserMissing
  | accepted
deriving DecidableEq

/-- The secret/binding checks of the upgrade handler, in source order:
missing (or empty, i.e. falsy) configured secret → 503 `notConfigured`;
missing/empty or non-matching provided secret → 401 `unauthorized`;
missing browser binding → 503 `browserMissing`; otherwise the socket pair is
created. -/
def upgradeCheck (providedSecret expectedSecret : Option String)
    (browserConfigured : Bool) : UpgradeOutcome :=
  if !(truthy? expectedSecret) then .notConfigured
  else if !(truthy? providedSecret)
      || !(timingSafeEqual (providedSecret.getD "") (expectedSecret.getD "")) then
    .unauthorized
  else if !browserConfigured then .browserMissing
  else .accepted

end CDP

namespace CDP

/-!
## Handlers

Each handler returns the mutated session, the events it emitted through the
WebSocket before its return value, the backend calls it made, and either a
result payload or a thrown error message (which the dispatcher converts into
a CDP error frame).
-/

/-- Output of one domain-handler invocation. -/
structure HOut where
  s : CDPSession
  events : List (String × EventParams) := []
  ops : List BackendOp := []
  res : Except String CDPResult

/-- The wire form of an object id: `obj-${counter}`. -/
def objIdStr (n : Nat) : String := "obj-" ++ Nat.repr n

/-- Allocate a fresh node id for a selector: hand out the current counter,
bump it, record the binding (`session.nodeIdCounter++` + `nodeMap.set`). -/
def allocNode (s : CDPSession) (sel : String) : Nat × CDPSession :=
  (s.nodeIdCounter,
   { s with
      nodeIdCounter := s.nodeIdCounter + 1
      nodeMap := mset s.nodeMap s.nodeIdCounter sel })

/-- The per-match allocation loop of `DOM.querySelectorAll`: element `i`
(0-based) gets a fresh id bound to `sel:nth-of-type(i+1)`. -/
def allocNodeList (s : CDPSession) (sel : String) (i : Nat) :
    Nat → List Nat × CDPSession
  | 0 => ([], s)
  | count + 1 =>
    let p := allocNode s (sel ++ ":nth-of-type(" ++ Nat.repr (i + 1) ++ ")")
    let rest := allocNodeList p.2 sel (i + 1) count
    (p.1 :: rest.1, rest.2)

/-- Allocate a fresh object id for a value (`obj-${session.objectIdCounter++}`
+ `objectMap.set`). -/
def allocObject (s : CDPSession) (v : JSVal) : String × CDPSession :=
  (objIdStr s.objectIdCounter,
   { s with
      objectIdCounter := s.objectIdCounter + 1
      objectMap := mset s.objectMap (objIdStr s.objectIdCounter) v })

/-- JS falsiness of an evaluated value (`!obj`). -/
def jsFalsy : JSVal → Bool
  | .undefined => true
  | .null => true
  | .bool b => !b
  | .num n => n == 0
  | .str s => s == ""
  | _ => false

/-- The `subtype` member of a `RemoteObject`. -/
def jsSubtype : JSVal → Option String
  | .arr _ => some "array"
  | .null => some "null"
  | _ => none

/-- `String.prototype.includes`: substring containment on code units. -/
def strContains (s sub : String) : Bool :=
  decide (sub.data <:+: s.data)

/-- `String.prototype.toLowerCase`, characterwise. -/
def strLower (s : String) : String := ⟨s.data.map Char.toLower⟩

/-- `DOM` handlers interpolate the looked-up node id into error messages;
an absent parameter prints as `undefined`. -/
def optNatStr : Option Nat → String
  | none => "undefined"
  | some n => Nat.repr n

/-- Branch on a JS value that may be `undefined`: the shape of
`const x = ...; if (!x) { ... } else { ... }`. -/
def jsIfSome {α β : Type} (x : Option α) (noneCase : β) (someCase : α → β) : β :=
  match x with
  | none => noneCase
  | some y => someCase y

/-- Branch on an evaluation outcome: the shape of `try/catch` around
`page.evaluate`. -/
def evalCase {β : Type} (e : EvalOutcome) (onOk : JSVal → β)
    (onThrew : String → β) : β :=
  match e with
  | .ok v => onOk v
  | .threw msg => onThrew msg

/-- Browser domain. -/
def handleBrowser (s : CDPSession) (command : String) (_params : Params) : HOut :=
  if command == "getVersion" then { s, res := .ok .other }
  else if command == "close" then { s, ops := [.closeBrowser], res := .ok .empty }
  else { s, res := .error ("Unknown Browser method: " ++ command) }

/-- Target domain. -/
def handleTarget (o : Oracle) (s : CDPSession) (command : String)
    (params : Params) : HOut :=
  if command == "createTarget" then
    let url := if truthy? params.url then params.url.getD "" else "about:blank"
    let targetId := o.uuid
    let s' := { s with pages := mset s.pages targetId () }
    let gotoOps := if url == "about:blank" then [] else [BackendOp.goto url]
    { s := s'
      events := [("Target.targetCreated", .targetCreated targetId o.pageTitle o.pageUrl)]
      ops := [.newPage] ++ gotoOps
      res := .ok (.targetId targetId) }
  else if command == "closeTarget" then
    jsIfSome params.targetId { s, res := .error "Target not found: undefined" }
      (fun tid =>
        jsIfSome (mlookup s.pages tid)
          { s, res := .error ("Target not found: " ++ tid) }
          (fun _ =>
            { s := { s with pages := mdelete s.pages tid }
              events := [("Target.targetDestroyed", .targetDestroyed tid)]
              ops := [.closePage tid]
              res := .ok (.success true) }))
  else if command == "getTargets" then { s, res := .ok .other }
  else if command == "attachToTarget" then
    { s, res := .ok (.sessionId params.targetId) }
  else { s, res := .error ("Unknown Target method: " ++ command) }

/-- Page domain. -/
def handlePage (o : Oracle) (s : CDPSession) (command : String)
    (params : Params) : HOut :=
  if command == "navigate" then
    if !(truthy? params.url) then { s, res := .error "url is required" }
    else
      { s
        events := [("Page.frameNavigated", .frameNavigated s.defaultTargetId o.pageUrl),
                   ("Page.loadEventFired", .loadEventFired)]
        ops := [.goto (params.url.getD "")]
        res := .ok (.navigate s.defaultTargetId o.uuid
          (if o.navOk then none else some "Navigation failed")) }
  else if command == "reload" then { s, ops := [.pageOp], res := .ok .empty }
  else if command == "getFrameTree" then { s, res := .ok .other }
  else if command == "captureScreenshot" then { s, ops := [.pageOp], res := .ok .other }
  else if command == "getLayoutMetrics" then { s, ops := [.pageOp], res := .ok .other }
  else if command == "bringToFront" then { s, ops := [.pageOp], res := .ok .empty }
  else if command == "setContent" then
    if !(truthy? params.html) then { s, res := .error "html is required" }
    else { s, ops := [.pageOp], res := .ok .empty }
  else if command == "printToPDF" then { s, ops := [.pageOp], res := .ok .other }
  else if command == "addScriptToEvaluateOnNewDocument" then
    if !(truthy? params.source) then { s, res := .error "source is required" }
    else
      let scripts := mset s.scriptsToEvaluateOnNewDocument o.uuid (params.source.getD "")
      { s := { s with scriptsToEvaluateOnNewDocument := scripts }
        ops := [.pageOp]
        res := .ok (.identifier o.uuid) }
  else if command == "removeScriptToEvaluateOnNewDocument" then
    jsIfSome params.identifier { s, res := .ok .empty }
      (fun ident =>
        let scripts := mdelete s.scriptsToEvaluateOnNewDocument ident
        { s := { s with scriptsToEvaluateOnNewDocument := scripts }
          res := .ok .empty })
  else if command == "handleJavaScriptDialog" then { s, res := .ok .empty }
  else if command == "stopLoading" then { s, ops := [.pageOp], res := .ok .empty }
  else if command == "getNavigationHistory" then { s, ops := [.pageOp], res := .ok .other }
  else if command == "navigateToHistoryEntry" then { s, ops := [.pageOp], res := .ok .empty }
  else if command == "setBypassCSP" then { s, ops := [.pageOp], res := .ok .empty }
  else if command == "enable" then { s, res := .ok .empty }
  else if command == "disable" then { s, res := .ok .empty }
  else { s, res := .error ("Unknown Page method: " ++ command) }

/-- Assemble the `RemoteObject` for an evaluation result; `withMeta` controls
the `className`/`description` members (present in `evaluate`, absent in
`callFunctionOn`). -/
def remoteObjectOf (v : JSVal) (returnByValue : Bool) (objectId : Option String)
    (withMeta : Bool) : RemoteObject where
  type := jsTypeof v
  subtype := jsSubtype v
  className := if withMeta then jsClassName v else none
  value := if returnByValue then some v else none
  objectId := objectId
  description := if withMeta then some (jsString v) else none

/-- Runtime domain. -/
def handleRuntime (o : Oracle) (s : CDPSession) (command : String)
    (params : Params) : HOut :=
  if command == "evaluate" then
    if !(truthy? params.expression) then { s, res := .error "expression is required" }
    else
      let expression := params.expression.getD ""
      let returnByValue := params.returnByValue.getD true
      let awaitPromise := params.awaitPromise.getD false
      let wrapped := if awaitPromise
        then "(async () => \x7b return " ++ expression ++ "; \x7d)()"
        else expression
      evalCase (o.evalOutcome wrapped)
        (fun v =>
          if !returnByValue && isJSObject v then
            let p := allocObject s v
            { s := p.2, res := .ok (.evalResult (remoteObjectOf v returnByValue (some p.1) true)) }
          else
            { s, res := .ok (.evalResult (remoteObjectOf v returnByValue none true)) })
        (fun msg => { s, res := .ok (.exceptionDetails 1 msg) })
  else if command == "callFunctionOn" then
    let args := params.arguments.getD []
    let returnByValue := params.returnByValue.getD true
    let resolved := args.map (fun a =>
      if truthy? a.objectId then (mlookup s.objectMap (a.objectId.getD "")).getD .undefined
      else a.value.getD .undefined)
    let fnSrc := "return (" ++ params.functionDeclaration.getD "undefined"
      ++ ").apply(this, arguments)"
    evalCase (o.callOutcome fnSrc resolved)
      (fun v =>
        if !returnByValue && isJSObject v then
          let p := allocObject s v
          { s := p.2, res := .ok (.evalResult (remoteObjectOf v returnByValue (some p.1) false)) }
        else
          { s, res := .ok (.evalResult (remoteObjectOf v returnByValue none false)) })
      (fun msg => { s, res := .ok (.exceptionDetails 1 msg) })
  else if command == "getProperties" then
    let ownProperties := params.ownProperties.getD true
    jsIfSome (params.objectId.bind (mlookup s.objectMap))
      { s, res := .ok (.properties []) }
      (fun v =>
      if jsFalsy v || !(jsTypeof v == "object") then
        { s, res := .ok (.properties []) }
      else
        let names := match v with
          | .obj props => props.map Prod.fst
          | .arr len =>
            (List.range len).map Nat.repr ++ (if ownProperties then ["length"] else [])
          | _ => []
        let valOf := fun (n : String) => match v with
          | .obj props => (mlookup props n).getD .undefined
          | _ => .undefined
        { s, res := .ok (.properties (names.map (fun n =>
            { name := n, valueType := jsTypeof (valOf n),
              writable := true, configurable := true, enumerable := true,
              isOwn := true }))) })
  else if command == "releaseObject" then
    jsIfSome params.objectId { s, res := .ok .empty }
      (fun oid => { s := { s with objectMap := mdelete s.objectMap oid }, res := .ok .empty })
  else if command == "releaseObjectGroup" then
    { s := { s with objectMap := [] }, res := .ok .empty }
  else if command == "enable" then { s, res := .ok .empty }
  else if command == "disable" then { s, res := .ok .empty }
  else { s, res := .error ("Unknown Runtime method: " ++ command) }

/-- DOM domain. -/
def handleDOM (o : Oracle) (s : CDPSession) (command : String)
    (params : Params) : HOut :=
  if command == "getDocument" then
    let p := allocNode s "html"
    { s := p.2, ops := [.pageOp], res := .ok (.document p.1) }
  else if command == "querySelector" then
    if !(truthy? params.selector) then { s, res := .error "selector is required" }
    else
      let sel := params.selector.getD ""
      if o.qsFound sel then
        let p := allocNode s sel
        { s := p.2, ops := [.pageOp], res := .ok (.nodeId p.1) }
      else { s, ops := [.pageOp], res := .ok (.nodeId 0) }
  else if command == "querySelectorAll" then
    if !(truthy? params.selector) then { s, res := .error "selector is required" }
    else
      let sel := params.selector.getD ""
      let p := allocNodeList s sel 0 (o.qsCount sel)
      { s := p.2, ops := [.pageOp], res := .ok (.nodeIds p.1) }
  else if command == "getOuterHTML" then
    jsIfSome (params.nodeId.bind (mlookup s.nodeMap))
      { s, ops := [.pageOp], res := .ok (.outerHTML o.pageContent) }
      (fun sel => { s, ops := [.pageOp], res := .ok (.outerHTML (o.outerHTMLOf sel)) })
  else if command == "getAttributes" then
    jsIfSome (params.nodeId.bind (mlookup s.nodeMap))
      { s, res := .error ("Node not found: " ++ optNatStr params.nodeId) }
      (fun sel => { s, ops := [.pageOp], res := .ok (.attributes (o.attrsOf sel)) })
  else if command == "setAttributeValue" then
    jsIfSome (params.nodeId.bind (mlookup s.nodeMap))
      { s, res := .error ("Node not found: " ++ optNatStr params.nodeId) }
      (fun _ => { s, ops := [.pageOp], res := .ok .empty })
  else if command == "focus" then
    jsIfSome (params.nodeId.bind (mlookup s.nodeMap))
      { s, res := .error ("Node not found: " ++ optNatStr params.nodeId) }
      (fun _ => { s, ops := [.pageOp], res := .ok .empty })
  else if command == "getBoxModel" then
    jsIfSome (params.nodeId.bind (mlookup s.nodeMap))
      { s, res := .error ("Node not found: " ++ optNatStr params.nodeId) }
      (fun sel =>
        if o.boxFound sel then { s, ops := [.pageOp], res := .ok .other }
        else { s, ops := [.pageOp], res := .error ("Element not found: " ++ sel) })
  else if command == "scrollIntoViewIfNeeded" then
    jsIfSome (params.nodeId.bind (mlookup s.nodeMap))
      { s, res := .error ("Node not found: " ++ optNatStr params.nodeId) }
      (fun _ => { s, ops := [.pageOp], res := .ok .empty })
  else if command == "removeNode" then
    jsIfSome params.nodeId { s, res := .error "Node not found: undefined" }
      (fun nid =>
        jsIfSome (mlookup s.nodeMap nid)
          { s, res := .error ("Node not found: " ++ Nat.repr nid) }
          (fun _ =>
            { s := { s with nodeMap := mdelete s.nodeMap nid }
              ops := [.pageOp]
              res := .ok .empty }))
  else if command == "setNodeValue" then
    jsIfSome (params.nodeId.bind (mlookup s.nodeMap))
      { s, res := .error ("Node not found: " ++ optNatStr params.nodeId) }
      (fun _ => { s, ops := [.pageOp], res := .ok .empty })
  else if command == "setFileInputFiles" then
    jsIfSome (params.nodeId.bind (mlookup s.nodeMap))
      { s, res := .error ("Node not found: " ++ optNatStr params.nodeId) }
      (fun sel =>
        { s, ops := if o.qsFound sel then [.pageOp] else [], res := .ok .empty })
  else if command == "enable" then { s, res := .ok .empty }
  else if command == "disable" then { s, res := .ok .empty }
  else { s, res := .error ("Unknown DOM method: " ++ command) }

/-- Input domain. -/
def handleInput (s : CDPSession) (command : String) (_params : Params) : HOut :=
  if command == "dispatchMouseEvent" then { s, ops := [.pageOp], res := .ok .empty }
  else if command == "dispatchKeyEvent" then { s, ops := [.pageOp], res := .ok .empty }
  else if command == "insertText" then { s, ops := [.pageOp], res := .ok .empty }
  else { s, res := .error ("Unknown Input method: " ++ command) }

/-- Network domain (its `page` argument may be absent). -/
def handleNetwork (s : CDPSession) (page : Option Unit) (command : String)
    (params : Params) : HOut :=
  if command == "enable" then { s, res := .ok .empty }
  else if command == "disable" then { s, res := .ok .empty }
  else if command == "setCacheDisabled" then
    { s, ops := if page.isSome then [.pageOp] else [], res := .ok .empty }
  else if command == "setExtraHTTPHeaders" then
    jsIfSome params.headers
      { s, res := .error "Cannot convert undefined or null to object" }
      (fun hs =>
        { s := { s with extraHTTPHeaders := hs }
          ops := if page.isSome then [.pageOp] else []
          res := .ok .empty })
  else if command == "setCookie" then
    if page.isNone then { s, res := .error "No page available" }
    else { s, ops := [.pageOp], res := .ok (.success true) }
  else if command == "setCookies" then
    if page.isNone then { s, res := .error "No page available" }
    else { s, ops := [.pageOp], res := .ok .empty }
  else if command == "getCookies" then
    if page.isNone then { s, res := .error "No page available" }
    else { s, ops := [.pageOp], res := .ok .other }
  else if command == "deleteCookies" then
    if page.isNone then { s, res := .error "No page available" }
    else { s, ops := [.pageOp], res := .ok .empty }
  else if command == "clearBrowserCookies" then
    if page.isNone then { s, res := .error "No page available" }
    else { s, ops := [.pageOp], res := .ok .empty }
  else if command == "setUserAgentOverride" then
    if page.isNone then { s, res := .error "No page available" }
    else { s, ops := [.pageOp], res := .ok .empty }
  else { s, res := .error ("Unknown Network method: " ++ command) }

/-- Emulation domain. -/
def handleEmulation (s : CDPSession) (command : String) (_params : Params) : HOut :=
  if command == "setDeviceMetricsOverride" then { s, ops := [.pageOp], res := .ok .empty }
  else if command == "setUserAgentOverride" then { s, ops := [.pageOp], res := .ok .empty }
  else if command == "clearDeviceMetricsOverride" then { s, ops := [.pageOp], res := .ok .empty }
  else if command == "setGeolocationOverride" then { s, ops := [.pageOp], res := .ok .empty }
  else if command == "clearGeolocationOverride" then { s, res := .ok .empty }
  else if command == "setTimezoneOverride" then { s, ops := [.pageOp], res := .ok .empty }
  else if command == "setTouchEmulationEnabled" then { s, ops := [.pageOp], res := .ok .empty }
  else if command == "setEmulatedMedia" then { s, ops := [.pageOp], res := .ok .empty }
  else if command == "setDefaultBackgroundColorOverride" then
    { s, ops := [.pageOp], res := .ok .empty }
  else { s, res := .error ("Unknown Emulation method: " ++ command) }

/-- `failRequest`'s mapping from a CDP error-reason string onto the backend
abort-reason vocabulary: the five keyword tests in source order, generic
`failed` as default. -/
def mapAbortReason (errorReason : String) : String :=
  let l := strLower errorReason
  if strContains l "access" then "accessdenied"
  else if strContains l "address" then "addressunreachable"
  else if strContains l "blocked" then "blockedbyclient"
  else if strContains l "connection" then "connectionfailed"
  else if strContains l "timeout" then "timedout"
  else "failed"

/-- Fetch (request interception) domain. -/
def handleFetch (s : CDPSession) (command : String) (params : Params) : HOut :=
  if command == "enable" then
    { s := { s with
        requestInterceptionEnabled := true
        interceptPatterns := params.patterns }
      ops := [.pageOp]
      res := .ok .empty }
  else if command == "disable" then
    { s := { s with requestInterceptionEnabled := false }
      ops := [.pageOp]
      res := .ok .empty }
  else if command == "continueRequest" then
    jsIfSome (params.requestId.bind (mlookup s.pendingRequests))
      { s, res := .error ("Request not found: "
          ++ params.requestId.getD "undefined") }
      (fun _ =>
        let rid := params.requestId.getD ""
        let withOverrides := truthy? params.url || truthy? params.method?
          || truthy? params.postData || params.headers.isSome
        { s := { s with pendingRequests := mdelete s.pendingRequests rid }
          ops := [.continueRequest rid withOverrides]
          res := .ok .empty })
  else if command == "fulfillRequest" then
    jsIfSome (params.requestId.bind (mlookup s.pendingRequests))
      { s, res := .error ("Request not found: "
          ++ params.requestId.getD "undefined") }
      (fun _ =>
        let rid := params.requestId.getD ""
        { s := { s with pendingRequests := mdelete s.pendingRequests rid }
          ops := [.respond rid params.responseCode]
          res := .ok .empty })
  else if command == "failRequest" then
    jsIfSome (params.requestId.bind (mlookup s.pendingRequests))
      { s, res := .error ("Request not found: "
          ++ params.requestId.getD "undefined") }
      (fun _ =>
        jsIfSome params.errorReason
          { s, res := .error "Cannot read properties of undefined (reading 'toLowerCase')" }
          (fun er =>
            let rid := params.requestId.getD ""
            { s := { s with pendingRequests := mdelete s.pendingRequests rid }
              ops := [.abort rid (mapAbortReason er)]
              res := .ok .empty }))
  else if command == "getResponseBody" then { s, res := .ok (.body "" false) }
  else { s, res := .error ("Unknown Fetch method: " ++ command) }

/-- `String.prototype.split` with a one-character separator, structurally on
the character list (`"".split('.')` is `[""]`, as in JS). -/
def jsSplit (sep : Char) : List Char → List (List Char)
  | [] => [[]]
  | c :: cs =>
    match jsSplit sep cs with
    | [] => [[]]
    | h :: t => if c == sep then [] :: h :: t else (c :: h) :: t

/-- The domain part of `method.split('.')`. -/
def methodDomain (method : String) : String :=
  ((jsSplit '.' method.data).headD []).asString

/-- The command part of `method.split('.')` (JS `undefined` when there is no
dot, modelled as `""`, which names no command). -/
def methodCommand (method : String) : String :=
  (((jsSplit '.' method.data).drop 1).headD []).asString

/-- The command dispatcher: split `method` into domain and command, resolve
the addressed page (`params.targetId` or the session default), route to the
domain handler, demanding a live page where the domain requires one. -/
def resolveTargetId (s : CDPSession) (params : Params) : String :=
  if truthy? params.targetId then params.targetId.getD "" else s.defaultTargetId

def handleCDPMethod (o : Oracle) (s : CDPSession) (method : String)
    (params : Params) : HOut :=
  let domain := methodDomain method
  let command := methodCommand method
  let targetId := resolveTargetId s params
  let page := mlookup s.pages targetId
  if domain == "Browser" then handleBrowser s command params
  else if domain == "Target" then handleTarget o s command params
  else if domain == "Page" then
    jsIfSome page { s, res := .error ("Target not found: " ++ targetId) }
      (fun _ => handlePage o s command params)
  else if domain == "Runtime" then
    jsIfSome page { s, res := .error ("Target not found: " ++ targetId) }
      (fun _ => handleRuntime o s command params)
  else if domain == "DOM" then
    jsIfSome page { s, res := .error ("Target not found: " ++ targetId) }
      (fun _ => handleDOM o s command params)
  else if domain == "Input" then
    jsIfSome page { s, res := .error ("Target not found: " ++ targetId) }
      (fun _ => handleInput s command params)
  else if domain == "Network" then handleNetwork s page command params
  else if domain == "Emulation" then
    jsIfSome page { s, res := .error ("Target not found: " ++ targetId) }
      (fun _ => handleEmulation s command params)
  else if domain == "Fetch" then
    jsIfSome page { s, res := .error ("Target not found: " ++ targetId) }
      (fun _ => handleFetch s command params)
  else { s, res := .error ("Unknown domain: " ++ domain) }

/-- Output of processing one inbound WebSocket text. -/
structure StepOut where
  s : CDPSession
  frames : List Frame
  ops : List BackendOp

/-- The message listener: unparseable input (`none`) is logged and dropped
with no outbound frame; otherwise the dispatcher runs and its result or
thrown error is wrapped into a response/error frame carrying the request
id. -/
def processMessage (o : Oracle) (s : CDPSession) (inb : Option CDPRequest) :
    StepOut :=
  match inb with
  | none => { s, frames := [], ops := [] }
  | some req =>
    let h := handleCDPMethod o s req.method req.params
    match h.res with
    | .ok r =>
      { s := h.s
        frames := h.events.map (fun e => Frame.event e.1 e.2) ++ [.response req.id r]
        ops := h.ops }
    | .error msg =>
      { s := h.s
        frames := h.events.map (fun e => Frame.event e.1 e.2)
          ++ [.error req.id (-32000) msg]
        ops := h.ops }

/-- The page `request` listener registered by `Fetch.enable`: pass requests
through while interception is off or the pattern list rejects the URL;
otherwise park the request under a fresh UUID and emit
`Fetch.requestPaused`. -/
def onRequestArrived (o : Oracle) (s : CDPSession) (url reqMethod : String) :
    StepOut :=
  if !s.requestInterceptionEnabled then
    { s, frames := [], ops := [.continueRequest "" false] }
  else
    let requestId := o.uuid
    let shouldIntercept := match s.interceptPatterns with
      | none => true
      | some ps =>
        ps.isEmpty || ps.any (fun p =>
          !(truthy? p.urlPattern) || o.regexTest url (p.urlPattern.getD ""))
    if shouldIntercept then
      let pending := mset s.pendingRequests requestId { url := url, method := reqMethod }
      { s := { s with pendingRequests := pending }
        frames := [.event "Fetch.requestPaused"
          (.requestPaused requestId url s.defaultTargetId)]
        ops := [] }
    else
      { s, frames := [], ops := [.continueRequest "" false] }

/-- Run a list of inbound messages through the session, each with the backend
answers its handling consumed, collecting all outbound frames. -/
def runSession (s : CDPSession) :
    List (Oracle × Option CDPRequest) → CDPSession × List Frame
  | [] => (s, [])
  | (o, m) :: rest =>
    let st := processMessage o s m
    let r := runSession st.s rest
    (r.1, st.frames ++ r.2)

/-- Node ids a result payload hands out (the `nodeId`/`nodeIds`/document-root
members); the never-allocated sentinel 0 returned by a matchless
`querySelector` is not an allocation. -/
def resNodeIds : CDPResult → List Nat
  | .nodeId n => if n == 0 then [] else [n]
  | .nodeIds ns => ns
  | .document r => [r]
  | _ => []

/-- Object ids a result payload hands out. -/
def resObjIds : CDPResult → List String
  | .evalResult r => r.objectId.toList
  | _ => []

/-- Node ids a frame hands out (only response frames carry any). -/
def frameNodeIds : Frame → List Nat
  | .response _ r => resNodeIds r
  | _ => []

/-- Object ids a frame hands out. -/
def frameObjIds : Frame → List String
  | .response _ r => resObjIds r
  | _ => []

/-- All node ids handed out across a frame sequence, in emission order. -/
def collectNodeIds (fs : List Frame) : List Nat :=
  (fs.map frameNodeIds).flatten

/-- All object ids handed out across a frame sequence, in emission order. -/
def collectObjIds (fs : List Frame) : List String :=
  (fs.map frameObjIds).flatten

end CDP

namespace CDP

/-!
## Map lemmas
-/

theorem mlookup_mset_self {α β : Type} [BEq α] [LawfulBEq α]
    (m : List (α × β)) (k : α) (v : β) : mlookup (mset m k v) k = some v := by
  simp [mset, List.lookup]

theorem mlookup_mset_ne {α β : Type} [BEq α] [LawfulBEq α]
    (m : List (α × β)) (k k' : α) (v : β) (h : k' ≠ k) :
    mlookup (mset m k v) k' = mlookup m k' := by
  simp [mset, List.lookup, beq_false_of_ne h]

theorem mlookup_mset_isSome {α β : Type} [BEq α] [LawfulBEq α]
    (m : List (α × β)) (k k' : α) (v : β) (h : (mlookup m k').isSome) :
    (mlookup (mset m k v) k').isSome := by
  by_cases hk : k' = k
  · subst hk; simp [mlookup_mset_self]
  · rwa [mlookup_mset_ne _ _ _ _ hk]

theorem mdelete_cons_self {α β : Type} [BEq α] [LawfulBEq α]
    (k : α) (p : α × β) (m : List (α × β)) (h : p.1 = k) :
    mdelete (p :: m) k = mdelete m k := by
  simp [mdelete, List.filter_cons, h]

theorem mdelete_cons_ne {α β : Type} [BEq α] [LawfulBEq α]
    (k : α) (p : α × β) (m : List (α × β)) (h : p.1 ≠ k) :
    mdelete (p :: m) k = p :: mdelete m k := by
  simp [mdelete, List.filter_cons, beq_false_of_ne h]

theorem mlookup_mdelete_self {α β : Type} [BEq α] [LawfulBEq α]
    (m : List (α × β)) (k : α) : mlookup (mdelete m k) k = none := by
  induction m with
  | nil => rfl
  | cons p m ih =>
    by_cases h : p.1 = k
    · rw [mdelete_cons_self k p m h]; exact ih
    · rw [mdelete_cons_ne k p m h]
      simp only [mlookup, List.lookup, beq_false_of_ne (Ne.symm h)]
      exact ih

theorem mlookup_mdelete_ne {α β : Type} [BEq α] [LawfulBEq α]
    (m : List (α × β)) (k k' : α) (h : k' ≠ k) :
    mlookup (mdelete m k) k' = mlookup m k' := by
  induction m with
  | nil => rfl
  | cons p m ih =>
    obtain ⟨a, b⟩ := p
    by_cases hp : a = k
    · rw [mdelete_cons_self k (a, b) m hp, ih]
      have hk' : k' ≠ a := fun hc => h (hc.trans hp)
      simp [List.lookup, beq_false_of_ne hk']
    · rw [mdelete_cons_ne k (a, b) m hp]
      by_cases hk : k' = a
      · simp [List.lookup, hk]
      · simp only [mlookup, List.lookup, beq_false_of_ne hk]
        exact ih

theorem mem_mdelete {α β : Type} [BEq α] [LawfulBEq α]
    (m : List (α × β)) (k : α) (p : α × β) (h : p ∈ mdelete m k) : p ∈ m :=
  (List.mem_filter.mp h).1

theorem mlookup_none_of_keys_pos {β : Type} (m : List (Nat × β))
    (hk : ∀ p ∈ m, 1 ≤ p.1) : mlookup m 0 = none := by
  induction m with
  | nil => rfl
  | cons p m ih =>
    have h1 : 1 ≤ p.1 := hk p (List.mem_cons_self ..)
    have : ¬ ((0 : Nat) == p.1) = true := by
      simp only [beq_iff_eq]; omega
    simp only [mlookup, List.lookup, this]
    exact ih (fun q hq => hk q (List.mem_cons_of_mem _ hq))

/-!
## `timingSafeEqual`: correctness and the constant-time property
-/

theorem tseLoop_snd (xs : List Nat) : ∀ (ys : List Nat) (r : Nat),
    (tseLoop xs ys r).2 = min xs.length ys.length := by
  induction xs with
  | nil => intro ys r; cases ys <;> simp [tseLoop]
  | cons x xs ih =>
    intro ys r
    cases ys with
    | nil => simp [tseLoop]
    | cons y ys => simp [tseLoop, ih, Nat.succ_min_succ]

theorem lor_eq_zero (x y : Nat) : x ||| y = 0 ↔ x = 0 ∧ y = 0 := by
  constructor
  · intro h
    constructor
    · refine Nat.zero_of_testBit_eq_false (fun i => ?_)
      have := congrArg (Nat.testBit · i) h
      simpa [Nat.testBit_lor] using (Bool.or_eq_false_iff.mp (by simpa using this)).1
    · refine Nat.zero_of_testBit_eq_false (fun i => ?_)
      have := congrArg (Nat.testBit · i) h
      simpa [Nat.testBit_lor] using (Bool.or_eq_false_iff.mp (by simpa using this)).2
  · rintro ⟨rfl, rfl⟩; rfl

theorem tseLoop_fst (xs : List Nat) : ∀ (ys : List Nat) (r : Nat),
    (tseLoop xs ys r).1 = 0 ↔ (r = 0 ∧ ∀ p ∈ xs.zip ys, p.1 = p.2) := by
  induction xs with
  | nil => intro ys r; cases ys <;> simp [tseLoop]
  | cons x xs ih =>
    intro ys r
    cases ys with
    | nil => simp [tseLoop]
    | cons y ys =>
      simp only [tseLoop, List.zip_cons_cons, List.mem_cons]
      rw [ih, lor_eq_zero, Nat.xor_eq_zero]
      constructor
      · rintro ⟨⟨hr, hxy⟩, hrest⟩
        exact ⟨hr, fun p hp => by rcases hp with rfl | hp; exact hxy; exact hrest p hp⟩
      · rintro ⟨hr, hall⟩
        exact ⟨⟨hr, hall (x, y) (Or.inl rfl)⟩, fun p hp => hall p (Or.inr hp)⟩

theorem zip_all_eq_iff (xs : List Nat) : ∀ (ys : List Nat),
    xs.length = ys.length → ((∀ p ∈ xs.zip ys, p.1 = p.2) ↔ xs = ys) := by
  induction xs with
  | nil => intro ys h; cases ys <;> simp_all
  | cons x xs ih =>
    intro ys h
    cases ys with
    | nil => simp at h
    | cons y ys =>
      simp only [List.zip_cons_cons, List.mem_cons, List.cons.injEq]
      rw [← ih ys (by simpa using h)]
      constructor
      · intro hall
        exact ⟨hall (x, y) (Or.inl rfl), fun p hp => hall p (Or.inr hp)⟩
      · rintro ⟨rfl, hrest⟩ p hp
        rcases hp with rfl | hp; rfl; exact hrest p hp

theorem char_toNat_injective : Function.Injective Char.toNat := by
  intro c d h
  cases c with | mk cv cvalid =>
  cases d with | mk dv dvalid =>
  have hv : cv = dv := by
    cases cv; cases dv
    exact congrArg UInt32.mk (BitVec.eq_of_toNat_eq h)
  subst hv; rfl

theorem codeUnits_inj (a b : String) (h : codeUnits a = codeUnits b) : a = b := by
  have hd : a.data = b.data := List.map_injective_iff.mpr char_toNat_injective h
  cases a; cases b
  exact congrArg String.mk hd

theorem codeUnits_length (a : String) : (codeUnits a).length = a.length := by
  unfold codeUnits
  rw [List.length_map]
  rfl

/-- `timingSafeEqual` accepts exactly the identical strings. -/
theorem timingSafeEqual_iff (a b : String) : timingSafeEqual a b = true ↔ a = b := by
  unfold timingSafeEqual
  by_cases h : a.length = b.length
  · have hlen : (codeUnits a).length = (codeUnits b).length := by
      rw [codeUnits_length, codeUnits_length, h]
    have hbne : (a.length != b.length) = false := by simp [h]
    rw [hbne]
    simp only [Bool.false_eq_true, if_false, beq_iff_eq]
    rw [tseLoop_fst, zip_all_eq_iff _ _ hlen]
    constructor
    · rintro ⟨-, hc⟩; exact codeUnits_inj _ _ hc
    · rintro rfl; exact ⟨rfl, rfl⟩
  · have hbne : (a.length != b.length) = true := by simp [h]
    rw [hbne]
    simp only [if_true, Bool.false_eq_true, false_iff]
    rintro rfl; exact absurd rfl h

/-- The number of comparison-loop iterations depends only on the two lengths,
never on the contents (no early exit on first mismatch). -/
theorem tseIterations_const (a b a' b' : String)
    (ha : a.length = a'.length) (hb : b.length = b'.length) :
    tseIterations a b = tseIterations a' b' := by
  unfold tseIterations
  rw [tseLoop_snd, tseLoop_snd, codeUnits_length, codeUnits_length,
    codeUnits_length, codeUnits_length, ha, hb]

end CDP

namespace CDP

/-!
## Injectivity of the decimal object-id rendering

`objIdStr n = "obj-" ++ Nat.repr n`; to show distinct counters give distinct
wire ids we relate core's fuelled `Nat.toDigitsCore` printer to a structural
decimal rendering and invert it.
-/

/-- Structural base-10 rendering (most significant digit first). -/
def decRender (n : Nat) : List Char :=
  if h : n < 10 then [Nat.digitChar n]
  else
    have : n / 10 < n := Nat.div_lt_self (by omega) (by omega)
    decRender (n / 10) ++ [Nat.digitChar (n % 10)]
termination_by n

theorem toDigitsCore_eq (fuel : Nat) : ∀ (n : Nat) (ds : List Char), n < fuel →
    Nat.toDigitsCore 10 fuel n ds = decRender n ++ ds := by
  induction fuel with
  | zero => intro n ds h; omega
  | succ fuel ih =>
    intro n ds h
    unfold Nat.toDigitsCore
    by_cases h10 : n / 10 = 0
    · have hn : n < 10 := by omega
      simp only [h10, if_true]
      rw [decRender, dif_pos hn, Nat.mod_eq_of_lt hn]
      rfl
    · have hge : ¬ n < 10 := by omega
      have hlt : n / 10 < fuel := by
        have : n / 10 < n := Nat.div_lt_self (by omega) (by omega)
        omega
      simp only [h10, if_false]
      rw [ih (n / 10) _ hlt]
      conv_rhs => rw [decRender, dif_neg hge]
      simp

/-- The digit characters for digits decode back via `toNat - 48`. -/
theorem digitChar_toNat (d : Nat) (h : d < 10) :
    (Nat.digitChar d).toNat = 48 + d := by
  interval_cases d <;> rfl

/-- One step of decimal parsing. -/
def decStep (a : Nat) (c : Char) : Nat := 10 * a + (c.toNat - 48)

/-- Decimal parsing of a digit string. -/
def decValue (l : List Char) : Nat := l.foldl decStep 0

theorem decValue_render (n : Nat) : ∀ (a : Nat),
    List.foldl decStep a (decRender n) = a * 10 ^ (decRender n).length + n := by
  induction n using Nat.strong_induction_on with
  | _ n ih =>
    intro a
    by_cases h : n < 10
    · rw [decRender, dif_pos h]
      simp only [List.foldl_cons, List.foldl_nil, List.length_cons, List.length_nil,
        decStep, digitChar_toNat n h]
      simp [pow_one]
      omega
    · have hdiv : n / 10 < n := Nat.div_lt_self (by omega) (by omega)
      rw [decRender, dif_neg h]
      rw [List.foldl_append, ih (n / 10) hdiv a]
      have hmod : n % 10 < 10 := Nat.mod_lt _ (by omega)
      have hdm : 10 * (n / 10) + n % 10 = n := Nat.div_add_mod n 10
      simp only [List.foldl_cons, List.foldl_nil, decStep, digitChar_toNat _ hmod,
        List.length_append, List.length_cons, List.length_nil]
      have : 48 + n % 10 - 48 = n % 10 := by omega
      rw [this, pow_succ]
      calc 10 * (a * 10 ^ (decRender (n / 10)).length + n / 10) + n % 10
          = a * (10 ^ (decRender (n / 10)).length * 10)
            + (10 * (n / 10) + n % 10) := by ring
        _ = a * (10 ^ (decRender (n / 10)).length * 10) + n := by rw [hdm]

theorem decValue_decRender (n : Nat) : decValue (decRender n) = n := by
  have := decValue_render n 0
  simpa [decValue] using this

theorem decRender_injective : Function.Injective decRender := by
  intro a b h
  have := congrArg decValue h
  rwa [decValue_decRender, decValue_decRender] at this

theorem repr_eq_decRender (n : Nat) : Nat.repr n = (decRender n).asString := by
  unfold Nat.repr Nat.toDigits
  rw [toDigitsCore_eq (n + 1) n [] (Nat.lt_succ_self n)]
  simp

theorem natRepr_injective : Function.Injective Nat.repr := by
  intro a b h
  rw [repr_eq_decRender, repr_eq_decRender] at h
  apply decRender_injective
  exact congrArg String.data h

theorem string_data_injective (a b : String) (h : a.data = b.data) : a = b := by
  cases a; cases b; exact congrArg String.mk h

theorem objIdStr_injective : Function.Injective objIdStr := by
  intro a b h
  apply natRepr_injective
  apply string_data_injective
  have := congrArg String.data h
  simp only [objIdStr, String.data_append] at this
  exact List.append_cancel_left this

end CDP

namespace CDP

/-!
## Per-step allocation invariant

For every handler invocation: counters never decrease, the node ids (resp.
object ids) handed out in the result are exactly the counter window consumed
by the step, the default target id is never reassigned, and every node-map
binding is either old or carries a key from the consumed window.
-/

/-- Node ids handed out by a handler invocation. -/
def hNodeIds (h : HOut) : List Nat :=
  match h.res with
  | .ok r => resNodeIds r
  | .error _ => []

/-- Object ids handed out by a handler invocation. -/
def hObjIds (h : HOut) : List String :=
  match h.res with
  | .ok r => resObjIds r
  | .error _ => []

structure HInv (s : CDPSession) (h : HOut) : Prop where
  nodeCtr_le : s.nodeIdCounter ≤ h.s.nodeIdCounter
  objCtr_le : s.objectIdCounter ≤ h.s.objectIdCounter
  nodeIds_eq : hNodeIds h
    = List.range' s.nodeIdCounter (h.s.nodeIdCounter - s.nodeIdCounter)
  objIds_eq : hObjIds h
    = (List.range' s.objectIdCounter (h.s.objectIdCounter - s.objectIdCounter)).map objIdStr
  default_eq : h.s.defaultTargetId = s.defaultTargetId
  nodeMap_sub : ∀ q ∈ h.s.nodeMap,
    q ∈ s.nodeMap ∨ (s.nodeIdCounter ≤ q.1 ∧ q.1 < h.s.nodeIdCounter)

theorem HInv.ofSub {s : CDPSession} {h : HOut}
    (h1 : h.s.nodeIdCounter = s.nodeIdCounter)
    (h2 : h.s.objectIdCounter = s.objectIdCounter)
    (h3 : hNodeIds h = [])
    (h4 : hObjIds h = [])
    (h5 : h.s.defaultTargetId = s.defaultTargetId)
    (h6 : ∀ q ∈ h.s.nodeMap, q ∈ s.nodeMap) : HInv s h := by
  refine ⟨h1.ge, h2.ge, ?_, ?_, h5, fun q hq => Or.inl (h6 q hq)⟩
  · rw [h3, h1, Nat.sub_self]; rfl
  · rw [h4, h2, Nat.sub_self]; rfl

theorem HInv.trivial {s : CDPSession} {h : HOut}
    (h1 : h.s.nodeIdCounter = s.nodeIdCounter)
    (h2 : h.s.objectIdCounter = s.objectIdCounter)
    (h3 : hNodeIds h = [])
    (h4 : hObjIds h = [])
    (h5 : h.s.defaultTargetId = s.defaultTargetId)
    (h6 : h.s.nodeMap = s.nodeMap) : HInv s h :=
  HInv.ofSub h1 h2 h3 h4 h5 (fun q hq => h6 ▸ hq)

theorem allocNodeList_spec (sel : String) : ∀ (count : Nat) (s : CDPSession) (i : Nat),
    (allocNodeList s sel i count).1 = List.range' s.nodeIdCounter count ∧
    (allocNodeList s sel i count).2.nodeIdCounter = s.nodeIdCounter + count ∧
    (allocNodeList s sel i count).2.objectIdCounter = s.objectIdCounter ∧
    (allocNodeList s sel i count).2.objectMap = s.objectMap ∧
    (allocNodeList s sel i count).2.pages = s.pages ∧
    (allocNodeList s sel i count).2.defaultTargetId = s.defaultTargetId ∧
    (allocNodeList s sel i count).2.pendingRequests = s.pendingRequests ∧
    (∀ q ∈ (allocNodeList s sel i count).2.nodeMap,
      q ∈ s.nodeMap ∨ (s.nodeIdCounter ≤ q.1 ∧ q.1 < s.nodeIdCounter + count)) := by
  intro count
  induction count with
  | zero =>
    intro s i
    refine ⟨rfl, rfl, rfl, rfl, rfl, rfl, rfl, fun q hq => Or.inl hq⟩
  | succ count ih =>
    intro s i
    obtain ⟨hfst, hctr, hobj, homap, hpages, hdef, hpend, hsub⟩ :=
      ih (allocNode s (sel ++ ":nth-of-type(" ++ Nat.repr (i + 1) ++ ")")).2 (i + 1)
    simp only [allocNodeList]
    refine ⟨?_, ?_, ?_, ?_, ?_, ?_, ?_, ?_⟩
    · rw [hfst]
      show s.nodeIdCounter :: List.range' (s.nodeIdCounter + 1) count
        = List.range' s.nodeIdCounter (count + 1)
      rw [List.range'_succ]
    · rw [hctr]; show s.nodeIdCounter + 1 + count = s.nodeIdCounter + (count + 1); omega
    · exact hobj.trans rfl
    · exact homap.trans rfl
    · exact hpages.trans rfl
    · exact hdef.trans rfl
    · exact hpend.trans rfl
    · intro q hq
      rcases hsub q hq with hold | hwin
      · simp only [allocNode, mset, List.mem_cons] at hold
        rcases hold with rfl | hold
        · right; constructor; exact Nat.le_refl _; omega
        · exact Or.inl hold
      · right
        have : (allocNode s (sel ++ ":nth-of-type(" ++ Nat.repr (i + 1) ++ ")")).2.nodeIdCounter
            = s.nodeIdCounter + 1 := rfl
        rw [this] at hwin
        omega

theorem HInv_docAlloc (s : CDPSession) :
    HInv s { s := (allocNode s "html").2, ops := [.pageOp],
             res := .ok (.document (allocNode s "html").1) } := by
  refine ⟨?_, ?_, ?_, ?_, ?_, ?_⟩
  · show s.nodeIdCounter ≤ s.nodeIdCounter + 1; omega
  · exact Nat.le_refl _
  · show [s.nodeIdCounter] = List.range' s.nodeIdCounter (s.nodeIdCounter + 1 - s.nodeIdCounter)
    rw [Nat.add_sub_cancel_left]
    rfl
  · show ([] : List String) = (List.range' s.objectIdCounter (s.objectIdCounter - s.objectIdCounter)).map objIdStr
    rw [Nat.sub_self]; rfl
  · rfl
  · intro q hq
    simp only [allocNode, mset, List.mem_cons] at hq
    rcases hq with rfl | hq
    · right
      refine ⟨Nat.le_refl _, ?_⟩
      show s.nodeIdCounter < s.nodeIdCounter + 1
      omega
    · exact Or.inl hq

theorem HInv_qsAlloc (s : CDPSession) (sel : String) (hpos : 1 ≤ s.nodeIdCounter) :
    HInv s { s := (allocNode s sel).2, ops := [.pageOp],
             res := .ok (.nodeId (allocNode s sel).1) } := by
  refine ⟨?_, ?_, ?_, ?_, ?_, ?_⟩
  · show s.nodeIdCounter ≤ s.nodeIdCounter + 1; omega
  · exact Nat.le_refl _
  · have hne : (s.nodeIdCounter == 0) = false := by
      simp only [beq_eq_false_iff_ne, ne_eq]; omega
    show resNodeIds (.nodeId s.nodeIdCounter)
      = List.range' s.nodeIdCounter (s.nodeIdCounter + 1 - s.nodeIdCounter)
    rw [Nat.add_sub_cancel_left]
    simp only [resNodeIds, hne, Bool.false_eq_true, if_false]
    rfl
  · show ([] : List String) = (List.range' s.objectIdCounter (s.objectIdCounter - s.objectIdCounter)).map objIdStr
    rw [Nat.sub_self]; rfl
  · rfl
  · intro q hq
    simp only [allocNode, mset, List.mem_cons] at hq
    rcases hq with rfl | hq
    · right
      refine ⟨Nat.le_refl _, ?_⟩
      show s.nodeIdCounter < s.nodeIdCounter + 1
      omega
    · exact Or.inl hq

theorem HInv_qsaAlloc (s : CDPSession) (sel : String) (count : Nat) :
    HInv s { s := (allocNodeList s sel 0 count).2, ops := [.pageOp],
             res := .ok (.nodeIds (allocNodeList s sel 0 count).1) } := by
  obtain ⟨hfst, hctr, hobj, -, -, hdef, -, hsub⟩ := allocNodeList_spec sel count s 0
  refine ⟨?_, ?_, ?_, ?_, ?_, ?_⟩
  · rw [hctr]; omega
  · rw [hobj]
  · show resNodeIds (.nodeIds (allocNodeList s sel 0 count).1)
      = List.range' s.nodeIdCounter ((allocNodeList s sel 0 count).2.nodeIdCounter - s.nodeIdCounter)
    rw [hfst, hctr, Nat.add_sub_cancel_left]
    rfl
  · show ([] : List String)
      = (List.range' s.objectIdCounter ((allocNodeList s sel 0 count).2.objectIdCounter - s.objectIdCounter)).map objIdStr
    rw [hobj, Nat.sub_self]; rfl
  · rw [hdef]
  · intro q hq
    rcases hsub q hq with hold | hwin
    · exact Or.inl hold
    · right; rw [hctr]; exact hwin

theorem HInv_evalAlloc (s : CDPSession) (v : JSVal) (rbv withMeta : Bool) :
    HInv s { s := (allocObject s v).2,
             res := .ok (.evalResult (remoteObjectOf v rbv (some (allocObject s v).1) withMeta)) } := by
  refine ⟨?_, ?_, ?_, ?_, ?_, ?_⟩
  · exact Nat.le_refl _
  · show s.objectIdCounter ≤ s.objectIdCounter + 1; omega
  · show ([] : List Nat) = List.range' s.nodeIdCounter (s.nodeIdCounter - s.nodeIdCounter)
    rw [Nat.sub_self]; rfl
  · show resObjIds (.evalResult (remoteObjectOf v rbv (some (allocObject s v).1) withMeta))
      = (List.range' s.objectIdCounter (s.objectIdCounter + 1 - s.objectIdCounter)).map objIdStr
    rw [Nat.add_sub_cancel_left]
    rfl
  · rfl
  · intro q hq; exact Or.inl hq

end CDP

namespace CDP

/-- `HInv` congruence through an `if`. -/
theorem HInv_ite {s : CDPSession} (c : Prop) [Decidable c] {a b : HOut}
    (ha : HInv s a) (hb : HInv s b) : HInv s (if c then a else b) := by
  by_cases h : c
  · rw [if_pos h]; exact ha
  · rw [if_neg h]; exact hb

/-- `HInv` congruence through `jsIfSome`. -/
theorem HInv_jsIfSome {α : Type} {s : CDPSession} {x : Option α} {a : HOut}
    {f : α → HOut} (ha : HInv s a) (hf : ∀ y, HInv s (f y)) :
    HInv s (jsIfSome x a f) := by
  cases x
  · exact ha
  · exact hf _

/-- `HInv` congruence through `evalCase`. -/
theorem HInv_evalCase {s : CDPSession} {e : EvalOutcome} {f : JSVal → HOut}
    {g : String → HOut} (hf : ∀ v, HInv s (f v)) (hg : ∀ m, HInv s (g m)) :
    HInv s (evalCase e f g) := by
  cases e
  · exact hf _
  · exact hg _

set_option maxHeartbeats 1600000 in
theorem handleBrowser_HInv (s : CDPSession) (c : String) (p : Params) :
    HInv s (handleBrowser s c p) := by
  delta handleBrowser
  repeat' first
    | apply HInv_ite
    | exact HInv.trivial rfl rfl rfl rfl rfl rfl

set_option maxHeartbeats 1600000 in
theorem handleTarget_HInv (o : Oracle) (s : CDPSession) (c : String) (p : Params) :
    HInv s (handleTarget o s c p) := by
  delta handleTarget
  repeat' first
    | apply HInv_ite
    | apply HInv_jsIfSome
    | intro y0
    | exact HInv.trivial rfl rfl rfl rfl rfl rfl

set_option maxHeartbeats 1600000 in
theorem handlePage_HInv (o : Oracle) (s : CDPSession) (c : String) (p : Params) :
    HInv s (handlePage o s c p) := by
  delta handlePage
  repeat' first
    | apply HInv_ite
    | apply HInv_jsIfSome
    | intro y0
    | exact HInv.trivial rfl rfl rfl rfl rfl rfl

set_option maxHeartbeats 1600000 in
theorem handleRuntime_HInv (o : Oracle) (s : CDPSession) (c : String) (p : Params) :
    HInv s (handleRuntime o s c p) := by
  delta handleRuntime
  repeat' first
    | apply HInv_ite
    | apply HInv_jsIfSome
    | apply HInv_evalCase
    | intro y0
    | exact HInv.trivial rfl rfl rfl rfl rfl rfl
    | exact HInv_evalAlloc _ _ _ _

set_option maxHeartbeats 1600000 in
theorem handleDOM_HInv (o : Oracle) (s : CDPSession) (c : String) (p : Params)
    (hpos : 1 ≤ s.nodeIdCounter) :
    HInv s (handleDOM o s c p) := by
  delta handleDOM
  repeat' first
    | apply HInv_ite
    | apply HInv_jsIfSome
    | intro y0
    | exact HInv.trivial rfl rfl rfl rfl rfl rfl
    | exact HInv_docAlloc _
    | exact HInv_qsAlloc _ _ hpos
    | exact HInv_qsaAlloc _ _ _
    | exact HInv.ofSub rfl rfl rfl rfl rfl (fun q hq => mem_mdelete _ _ _ hq)

set_option maxHeartbeats 1600000 in
theorem handleInput_HInv (s : CDPSession) (c : String) (p : Params) :
    HInv s (handleInput s c p) := by
  delta handleInput
  repeat' first
    | apply HInv_ite
    | exact HInv.trivial rfl rfl rfl rfl rfl rfl

set_option maxHeartbeats 1600000 in
theorem handleNetwork_HInv (s : CDPSession) (pg : Option Unit) (c : String) (p : Params) :
    HInv s (handleNetwork s pg c p) := by
  delta handleNetwork
  repeat' first
    | apply HInv_ite
    | apply HInv_jsIfSome
    | intro y0
    | exact HInv.trivial rfl rfl rfl rfl rfl rfl

set_option maxHeartbeats 1600000 in
theorem handleEmulation_HInv (s : CDPSession) (c : String) (p : Params) :
    HInv s (handleEmulation s c p) := by
  delta handleEmulation
  repeat' first
    | apply HInv_ite
    | exact HInv.trivial rfl rfl rfl rfl rfl rfl

set_option maxHeartbeats 1600000 in
theorem handleFetch_HInv (s : CDPSession) (c : String) (p : Params) :
    HInv s (handleFetch s c p) := by
  delta handleFetch
  repeat' first
    | apply HInv_ite
    | apply HInv_jsIfSome
    | intro y0
    | exact HInv.trivial rfl rfl rfl rfl rfl rfl

set_option maxHeartbeats 1600000 in
theorem handleCDPMethod_HInv (o : Oracle) (s : CDPSession) (m : String) (p : Params)
    (hpos : 1 ≤ s.nodeIdCounter) :
    HInv s (handleCDPMethod o s m p) := by
  delta handleCDPMethod
  repeat' first
    | exact handleBrowser_HInv _ _ _
    | exact handleTarget_HInv _ _ _ _
    | exact handlePage_HInv _ _ _ _
    | exact handleRuntime_HInv _ _ _ _
    | exact handleDOM_HInv _ _ _ _ hpos
    | exact handleInput_HInv _ _ _
    | exact handleNetwork_HInv _ _ _ _
    | exact handleEmulation_HInv _ _ _
    | exact handleFetch_HInv _ _ _
    | exact HInv.trivial rfl rfl rfl rfl rfl rfl
    | apply HInv_ite
    | apply HInv_jsIfSome
    | intro y0

end CDP

namespace CDP

/-!
## Step- and session-level allocation facts
-/

theorem collectNodeIds_append (a b : List Frame) :
    collectNodeIds (a ++ b) = collectNodeIds a ++ collectNodeIds b := by
  simp [collectNodeIds]

theorem collectObjIds_append (a b : List Frame) :
    collectObjIds (a ++ b) = collectObjIds a ++ collectObjIds b := by
  simp [collectObjIds]

theorem collectNodeIds_events (es : List (String × EventParams)) (f : Frame) :
    collectNodeIds (es.map (fun e => Frame.event e.1 e.2) ++ [f]) = frameNodeIds f := by
  induction es with
  | nil => simp [collectNodeIds]
  | cons e es ih => simpa [collectNodeIds, frameNodeIds] using ih

theorem collectObjIds_events (es : List (String × EventParams)) (f : Frame) :
    collectObjIds (es.map (fun e => Frame.event e.1 e.2) ++ [f]) = frameObjIds f := by
  induction es with
  | nil => simp [collectObjIds]
  | cons e es ih => simpa [collectObjIds, frameObjIds] using ih

/-- The per-step invariant at the level of processed messages. -/
structure SInv (s : CDPSession) (out : StepOut) : Prop where
  nodeCtr_le : s.nodeIdCounter ≤ out.s.nodeIdCounter
  objCtr_le : s.objectIdCounter ≤ out.s.objectIdCounter
  nodeIds_eq : collectNodeIds out.frames
    = List.range' s.nodeIdCounter (out.s.nodeIdCounter - s.nodeIdCounter)
  objIds_eq : collectObjIds out.frames
    = (List.range' s.objectIdCounter (out.s.objectIdCounter - s.objectIdCounter)).map objIdStr
  default_eq : out.s.defaultTargetId = s.defaultTargetId
  nodeMap_sub : ∀ q ∈ out.s.nodeMap,
    q ∈ s.nodeMap ∨ (s.nodeIdCounter ≤ q.1 ∧ q.1 < out.s.nodeIdCounter)

theorem processMessage_s_eq (o : Oracle) (s : CDPSession) (req : CDPRequest) :
    (processMessage o s (some req)).s = (handleCDPMethod o s req.method req.params).s := by
  unfold processMessage
  cases hres : (handleCDPMethod o s req.method req.params).res with
  | ok r => simp [hres]
  | error msg => simp [hres]

theorem processMessage_SInv (o : Oracle) (s : CDPSession) (inb : Option CDPRequest)
    (hpos : 1 ≤ s.nodeIdCounter) : SInv s (processMessage o s inb) := by
  cases inb with
  | none =>
    refine ⟨Nat.le_refl _, Nat.le_refl _, ?_, ?_, rfl, fun q hq => Or.inl hq⟩
    · show collectNodeIds [] = List.range' s.nodeIdCounter (s.nodeIdCounter - s.nodeIdCounter)
      rw [Nat.sub_self]; rfl
    · show collectObjIds []
        = (List.range' s.objectIdCounter (s.objectIdCounter - s.objectIdCounter)).map objIdStr
      rw [Nat.sub_self]; rfl
  | some req =>
    obtain ⟨h1, h2, h3, h4, h5, h6⟩ := handleCDPMethod_HInv o s req.method req.params hpos
    have hs := processMessage_s_eq o s req
    have hframes : collectNodeIds (processMessage o s (some req)).frames
        = hNodeIds (handleCDPMethod o s req.method req.params) ∧
        collectObjIds (processMessage o s (some req)).frames
        = hObjIds (handleCDPMethod o s req.method req.params) := by
      unfold processMessage
      cases hres : (handleCDPMethod o s req.method req.params).res with
      | ok r =>
        simp only [hres]
        constructor
        · rw [collectNodeIds_events]
          simp [frameNodeIds, hNodeIds, hres]
        · rw [collectObjIds_events]
          simp [frameObjIds, hObjIds, hres]
      | error msg =>
        simp only [hres]
        constructor
        · rw [collectNodeIds_events]
          simp [frameNodeIds, hNodeIds, hres]
        · rw [collectObjIds_events]
          simp [frameObjIds, hObjIds, hres]
    refine ⟨?_, ?_, ?_, ?_, ?_, ?_⟩
    · rw [hs]; exact h1
    · rw [hs]; exact h2
    · rw [hframes.1, hs]; exact h3
    · rw [hframes.2, hs]; exact h4
    · rw [hs]; exact h5
    · rw [hs]; exact h6

theorem range'_glue (a b c : Nat) (hab : a ≤ b) (hbc : b ≤ c) :
    List.range' a (b - a) ++ List.range' b (c - b) = List.range' a (c - a) := by
  have h1 : a + (b - a) = b := by omega
  have h2 : (c - b) + (b - a) = c - a := by omega
  calc List.range' a (b - a) ++ List.range' b (c - b)
      = List.range' a (b - a) ++ List.range' (a + (b - a)) (c - b) := by rw [h1]
    _ = List.range' a ((c - b) + (b - a)) := List.range'_append_1 a (b - a) (c - b)
    _ = List.range' a (c - a) := by rw [h2]

/-- Session-level fold of the per-step invariant. -/
theorem runSession_spec : ∀ (msgs : List (Oracle × Option CDPRequest)) (s : CDPSession),
    1 ≤ s.nodeIdCounter →
    s.nodeIdCounter ≤ (runSession s msgs).1.nodeIdCounter ∧
    s.objectIdCounter ≤ (runSession s msgs).1.objectIdCounter ∧
    collectNodeIds (runSession s msgs).2
      = List.range' s.nodeIdCounter ((runSession s msgs).1.nodeIdCounter - s.nodeIdCounter) ∧
    collectObjIds (runSession s msgs).2
      = (List.range' s.objectIdCounter
          ((runSession s msgs).1.objectIdCounter - s.objectIdCounter)).map objIdStr ∧
    (runSession s msgs).1.defaultTargetId = s.defaultTargetId ∧
    (∀ q ∈ (runSession s msgs).1.nodeMap,
      q ∈ s.nodeMap ∨ (s.nodeIdCounter ≤ q.1 ∧ q.1 < (runSession s msgs).1.nodeIdCounter)) := by
  intro msgs
  induction msgs with
  | nil =>
    intro s hpos
    refine ⟨Nat.le_refl _, Nat.le_refl _, ?_, ?_, rfl, fun q hq => Or.inl hq⟩
    · show collectNodeIds [] = List.range' s.nodeIdCounter (s.nodeIdCounter - s.nodeIdCounter)
      rw [Nat.sub_self]; rfl
    · show collectObjIds []
        = (List.range' s.objectIdCounter (s.objectIdCounter - s.objectIdCounter)).map objIdStr
      rw [Nat.sub_self]; rfl
  | cons om rest ih =>
    intro s hpos
    obtain ⟨o, m⟩ := om
    obtain ⟨s1, s2, s3, s4, s5, s6⟩ := processMessage_SInv o s m hpos
    have hpos1 : 1 ≤ (processMessage o s m).s.nodeIdCounter := Nat.le_trans hpos s1
    obtain ⟨i1, i2, i3, i4, i5, i6⟩ := ih (processMessage o s m).s hpos1
    have hrw : runSession s ((o, m) :: rest)
        = ((runSession (processMessage o s m).s rest).1,
           (processMessage o s m).frames ++ (runSession (processMessage o s m).s rest).2) := rfl
    rw [hrw]
    refine ⟨Nat.le_trans s1 i1, Nat.le_trans s2 i2, ?_, ?_, i5.trans s5, ?_⟩
    · rw [collectNodeIds_append, s3, i3]
      exact range'_glue _ _ _ s1 i1
    · rw [collectObjIds_append, s4, i4, ← List.map_append]
      rw [range'_glue _ _ _ s2 i2]
    · intro q hq
      rcases i6 q hq with hmid | hwin
      · rcases s6 q hmid with hold | hwin0
        · exact Or.inl hold
        · right; exact ⟨hwin0.1, Nat.lt_of_lt_of_le hwin0.2 i1⟩
      · right; exact ⟨Nat.le_trans s1 hwin.1, hwin.2⟩

end CDP

namespace CDP

/-!
## Preservation of the target map

Only `Target.createTarget` and `Target.closeTarget` touch `pages`; presence
of a target id is preserved by every step that is not a `closeTarget`
addressed at that very id.
-/

theorem mlookup_mset_unit (m : List (String × Unit)) (k d : String)
    (h : mlookup m d = some ()) : mlookup (mset m k ()) d = some () := by
  by_cases hk : d = k
  · subst hk; exact mlookup_mset_self m d ()
  · rw [mlookup_mset_ne m k d () hk]; exact h

theorem pagesEq_ite (c : Prop) [Decidable c] {a b : HOut}
    {ps : List (String × Unit)} (ha : a.s.pages = ps) (hb : b.s.pages = ps) :
    (if c then a else b).s.pages = ps := by
  by_cases h : c
  · rw [if_pos h]; exact ha
  · rw [if_neg h]; exact hb

theorem pagesEq_jsIfSome {α : Type} {x : Option α} {a : HOut} {f : α → HOut}
    {ps : List (String × Unit)} (ha : a.s.pages = ps)
    (hf : ∀ y, (f y).s.pages = ps) : (jsIfSome x a f).s.pages = ps := by
  cases x
  · exact ha
  · exact hf _

theorem pagesEq_evalCase {e : EvalOutcome} {f : JSVal → HOut} {g : String → HOut}
    {ps : List (String × Unit)} (hf : ∀ v, (f v).s.pages = ps)
    (hg : ∀ m, (g m).s.pages = ps) : (evalCase e f g).s.pages = ps := by
  cases e
  · exact hf _
  · exact hg _

set_option maxHeartbeats 1600000 in
theorem handleBrowser_pagesEq (s : CDPSession) (c : String) (p : Params) :
    (handleBrowser s c p).s.pages = s.pages := by
  delta handleBrowser
  repeat' first
    | apply pagesEq_ite
    | intro y0
    | rfl

set_option maxHeartbeats 1600000 in
theorem handlePage_pagesEq (o : Oracle) (s : CDPSession) (c : String) (p : Params) :
    (handlePage o s c p).s.pages = s.pages := by
  delta handlePage
  repeat' first
    | apply pagesEq_ite
    | apply pagesEq_jsIfSome
    | intro y0
    | rfl

set_option maxHeartbeats 1600000 in
theorem handleRuntime_pagesEq (o : Oracle) (s : CDPSession) (c : String) (p : Params) :
    (handleRuntime o s c p).s.pages = s.pages := by
  delta handleRuntime
  repeat' first
    | apply pagesEq_ite
    | apply pagesEq_jsIfSome
    | apply pagesEq_evalCase
    | intro y0
    | rfl

set_option maxHeartbeats 1600000 in
theorem handleDOM_pagesEq (o : Oracle) (s : CDPSession) (c : String) (p : Params) :
    (handleDOM o s c p).s.pages = s.pages := by
  delta handleDOM
  repeat' first
    | apply pagesEq_ite
    | apply pagesEq_jsIfSome
    | intro y0
    | rfl
    | exact (allocNodeList_spec _ _ _ _).2.2.2.2.1

set_option maxHeartbeats 1600000 in
theorem handleInput_pagesEq (s : CDPSession) (c : String) (p : Params) :
    (handleInput s c p).s.pages = s.pages := by
  delta handleInput
  repeat' first
    | apply pagesEq_ite
    | intro y0
    | rfl

set_option maxHeartbeats 1600000 in
theorem handleNetwork_pagesEq (s : CDPSession) (pg : Option Unit) (c : String) (p : Params) :
    (handleNetwork s pg c p).s.pages = s.pages := by
  delta handleNetwork
  repeat' first
    | apply pagesEq_ite
    | apply pagesEq_jsIfSome
    | intro y0
    | rfl

set_option maxHeartbeats 1600000 in
theorem handleEmulation_pagesEq (s : CDPSession) (c : String) (p : Params) :
    (handleEmulation s c p).s.pages = s.pages := by
  delta handleEmulation
  repeat' first
    | apply pagesEq_ite
    | intro y0
    | rfl

set_option maxHeartbeats 1600000 in
theorem handleFetch_pagesEq (s : CDPSession) (c : String) (p : Params) :
    (handleFetch s c p).s.pages = s.pages := by
  delta handleFetch
  repeat' first
    | apply pagesEq_ite
    | apply pagesEq_jsIfSome
    | intro y0
    | rfl

theorem pagesP_ite (d : String) (c : Prop) [Decidable c] {a b : HOut}
    (ha : c → mlookup a.s.pages d = some ())
    (hb : ¬ c → mlookup b.s.pages d = some ()) :
    mlookup (if c then a else b).s.pages d = some () := by
  by_cases h : c
  · rw [if_pos h]; exact ha h
  · rw [if_neg h]; exact hb h

theorem pagesP_jsIfSome (d : String) {α : Type} {x : Option α} {a : HOut}
    {f : α → HOut} (ha : mlookup a.s.pages d = some ())
    (hf : ∀ y, x = some y → mlookup (f y).s.pages d = some ()) :
    mlookup (jsIfSome x a f).s.pages d = some () := by
  cases hx : x
  · exact ha
  · exact hf _ hx

set_option maxHeartbeats 1600000 in
theorem handleTarget_pages (o : Oracle) (s : CDPSession) (c : String) (p : Params)
    (d : String) (hd : mlookup s.pages d = some ())
    (hclose : c = "closeTarget" → p.targetId ≠ some d) :
    mlookup (handleTarget o s c p).s.pages d = some () := by
  delta handleTarget
  apply pagesP_ite d
  · intro _
    exact mlookup_mset_unit s.pages o.uuid d hd
  · intro _
    apply pagesP_ite d
    · intro hc2
      apply pagesP_jsIfSome d
      · exact hd
      · intro tid htid
        apply pagesP_jsIfSome d
        · exact hd
        · intro u _
          have hcs : c = "closeTarget" := by simpa using hc2
          have hne : p.targetId ≠ some d := hclose hcs
          have htd : d ≠ tid := fun hdt => hne (by rw [htid, hdt])
          show mlookup (mdelete s.pages tid) d = some ()
          rw [mlookup_mdelete_ne s.pages tid d htd]
          exact hd
    · intro _
      apply pagesP_ite d
      · intro _; exact hd
      · intro _
        apply pagesP_ite d
        · intro _; exact hd
        · intro _; exact hd

/-- Is this inbound message a `Target.closeTarget` addressed at target `d`
(under the dispatcher's `method.split('.')` semantics)? -/
def isCloseTargetOn (d : String) : Option CDPRequest → Bool
  | none => false
  | some req =>
    methodDomain req.method == "Target"
      && (methodCommand req.method == "closeTarget" && req.params.targetId == some d)

set_option maxHeartbeats 1600000 in
theorem handleCDPMethod_pages (o : Oracle) (s : CDPSession) (m : String)
    (p : Params) (d : String) (hd : mlookup s.pages d = some ())
    (hcond : ¬(methodDomain m = "Target" ∧ methodCommand m = "closeTarget"
      ∧ p.targetId = some d)) :
    mlookup (handleCDPMethod o s m p).s.pages d = some () := by
  delta handleCDPMethod
  apply pagesP_ite d
  · intro _; rw [handleBrowser_pagesEq]; exact hd
  · intro _
    apply pagesP_ite d
    · intro hTdom
      refine handleTarget_pages o s _ p d hd (fun hc hp => ?_)
      exact hcond ⟨by simpa using hTdom, hc, hp⟩
    · intro _
      apply pagesP_ite d
      · intro _
        apply pagesP_jsIfSome d
        · exact hd
        · intro y _; rw [handlePage_pagesEq]; exact hd
      · intro _
        apply pagesP_ite d
        · intro _
          apply pagesP_jsIfSome d
          · exact hd
          · intro y _; rw [handleRuntime_pagesEq]; exact hd
        · intro _
          apply pagesP_ite d
          · intro _
            apply pagesP_jsIfSome d
            · exact hd
            · intro y _; rw [handleDOM_pagesEq]; exact hd
          · intro _
            apply pagesP_ite d
            · intro _
              apply pagesP_jsIfSome d
              · exact hd
              · intro y _; rw [handleInput_pagesEq]; exact hd
            · intro _
              apply pagesP_ite d
              · intro _; rw [handleNetwork_pagesEq]; exact hd
              · intro _
                apply pagesP_ite d
                · intro _
                  apply pagesP_jsIfSome d
                  · exact hd
                  · intro y _; rw [handleEmulation_pagesEq]; exact hd
                · intro _
                  apply pagesP_ite d
                  · intro _
                    apply pagesP_jsIfSome d
                    · exact hd
                    · intro y _; rw [handleFetch_pagesEq]; exact hd
                  · intro _; exact hd

theorem processMessage_pages (o : Oracle) (s : CDPSession) (inb : Option CDPRequest)
    (d : String) (hd : mlookup s.pages d = some ())
    (hcond : isCloseTargetOn d inb = false) :
    mlookup (processMessage o s inb).s.pages d = some () := by
  cases inb with
  | none => exact hd
  | some req =>
    rw [processMessage_s_eq]
    apply handleCDPMethod_pages o s req.method req.params d hd
    intro ⟨h1, h2, h3⟩
    simp only [isCloseTargetOn, h1, h2, h3, beq_self_eq_true, Bool.and_self] at hcond
    exact absurd hcond (by simp)

theorem runSession_pages : ∀ (msgs : List (Oracle × Option CDPRequest))
    (s : CDPSession) (d : String),
    mlookup s.pages d = some () →
    (∀ om ∈ msgs, isCloseTargetOn d om.2 = false) →
    mlookup (runSession s msgs).1.pages d = some () := by
  intro msgs
  induction msgs with
  | nil => intro s d hd _; exact hd
  | cons om rest ih =>
    intro s d hd hcond
    obtain ⟨o, m⟩ := om
    exact ih (processMessage o s m).s d
      (processMessage_pages o s m d hd (hcond (o, m) (List.mem_cons_self ..)))
      (fun q hq => hcond q (List.mem_cons_of_mem _ hq))

end CDP

namespace CDP

/-!
## Known domains and commands (the switch cases of the dispatcher)
-/

def knownDomains : List String :=
  ["Browser", "Target", "Page", "Runtime", "DOM", "Input", "Network",
   "Emulation", "Fetch"]

def domainCommands : String → List String
  | "Browser" => ["getVersion", "close"]
  | "Target" => ["createTarget", "closeTarget", "getTargets", "attachToTarget"]
  | "Page" =>
    ["navigate", "reload", "getFrameTree", "captureScreenshot",
     "getLayoutMetrics", "bringToFront", "setContent", "printToPDF",
     "addScriptToEvaluateOnNewDocument", "removeScriptToEvaluateOnNewDocument",
     "handleJavaScriptDialog", "stopLoading", "getNavigationHistory",
     "navigateToHistoryEntry", "setBypassCSP", "enable", "disable"]
  | "Runtime" =>
    ["evaluate", "callFunctionOn", "getProperties", "releaseObject",
     "releaseObjectGroup", "enable", "disable"]
  | "DOM" =>
    ["getDocument", "querySelector", "querySelectorAll", "getOuterHTML",
     "getAttributes", "setAttributeValue", "focus", "getBoxModel",
     "scrollIntoViewIfNeeded", "removeNode", "setNodeValue",
     "setFileInputFiles", "enable", "disable"]
  | "Input" => ["dispatchMouseEvent", "dispatchKeyEvent", "insertText"]
  | "Network" =>
    ["enable", "disable", "setCacheDisabled", "setExtraHTTPHeaders",
     "setCookie", "setCookies", "getCookies", "deleteCookies",
     "clearBrowserCookies", "setUserAgentOverride"]
  | "Emulation" =>
    ["setDeviceMetricsOverride", "setUserAgentOverride",
     "clearDeviceMetricsOverride", "setGeolocationOverride",
     "clearGeolocationOverride", "setTimezoneOverride",
     "setTouchEmulationEnabled", "setEmulatedMedia",
     "setDefaultBackgroundColorOverride"]
  | "Fetch" =>
    ["enable", "disable", "continueRequest", "fulfillRequest", "failRequest",
     "getResponseBody"]
  | _ => []

set_option maxHeartbeats 1600000 in
theorem handleBrowser_unknown (s : CDPSession) (c : String) (ps : Params)
    (hc : c ∉ domainCommands "Browser") :
    handleBrowser s c ps = { s := s, res := .error ("Unknown Browser method: " ++ c) } := by
  simp only [domainCommands, List.mem_cons, List.not_mem_nil, or_false, not_or] at hc
  delta handleBrowser
  simp [beq_iff_eq, hc]

set_option maxHeartbeats 1600000 in
theorem handleTarget_unknown (o : Oracle) (s : CDPSession) (c : String) (ps : Params)
    (hc : c ∉ domainCommands "Target") :
    handleTarget o s c ps = { s := s, res := .error ("Unknown Target method: " ++ c) } := by
  simp only [domainCommands, List.mem_cons, List.not_mem_nil, or_false, not_or] at hc
  delta handleTarget
  simp [beq_iff_eq, hc]

set_option maxHeartbeats 1600000 in
theorem handlePage_unknown (o : Oracle) (s : CDPSession) (c : String) (ps : Params)
    (hc : c ∉ domainCommands "Page") :
    handlePage o s c ps = { s := s, res := .error ("Unknown Page method: " ++ c) } := by
  simp only [domainCommands, List.mem_cons, List.not_mem_nil, or_false, not_or] at hc
  delta handlePage
  simp [beq_iff_eq, hc]

set_option maxHeartbeats 1600000 in
theorem handleRuntime_unknown (o : Oracle) (s : CDPSession) (c : String) (ps : Params)
    (hc : c ∉ domainCommands "Runtime") :
    handleRuntime o s c ps = { s := s, res := .error ("Unknown Runtime method: " ++ c) } := by
  simp only [domainCommands, List.mem_cons, List.not_mem_nil, or_false, not_or] at hc
  delta handleRuntime
  simp [beq_iff_eq, hc]

set_option maxHeartbeats 1600000 in
theorem handleDOM_unknown (o : Oracle) (s : CDPSession) (c : String) (ps : Params)
    (hc : c ∉ domainCommands "DOM") :
    handleDOM o s c ps = { s := s, res := .error ("Unknown DOM method: " ++ c) } := by
  simp only [domainCommands, List.mem_cons, List.not_mem_nil, or_false, not_or] at hc
  delta handleDOM
  simp [beq_iff_eq, hc]

set_option maxHeartbeats 1600000 in
theorem handleInput_unknown (s : CDPSession) (c : String) (ps : Params)
    (hc : c ∉ domainCommands "Input") :
    handleInput s c ps = { s := s, res := .error ("Unknown Input method: " ++ c) } := by
  simp only [domainCommands, List.mem_cons, List.not_mem_nil, or_false, not_or] at hc
  delta handleInput
  simp [beq_iff_eq, hc]

set_option maxHeartbeats 1600000 in
theorem handleNetwork_unknown (s : CDPSession) (pg : Option Unit) (c : String) (ps : Params)
    (hc : c ∉ domainCommands "Network") :
    handleNetwork s pg c ps = { s := s, res := .error ("Unknown Network method: " ++ c) } := by
  simp only [domainCommands, List.mem_cons, List.not_mem_nil, or_false, not_or] at hc
  delta handleNetwork
  simp [beq_iff_eq, hc]

set_option maxHeartbeats 1600000 in
theorem handleEmulation_unknown (s : CDPSession) (c : String) (ps : Params)
    (hc : c ∉ domainCommands "Emulation") :
    handleEmulation s c ps = { s := s, res := .error ("Unknown Emulation method: " ++ c) } := by
  simp only [domainCommands, List.mem_cons, List.not_mem_nil, or_false, not_or] at hc
  delta handleEmulation
  simp [beq_iff_eq, hc]

set_option maxHeartbeats 1600000 in
theorem handleFetch_unknown (s : CDPSession) (c : String) (ps : Params)
    (hc : c ∉ domainCommands "Fetch") :
    handleFetch s c ps = { s := s, res := .error ("Unknown Fetch method: " ++ c) } := by
  simp only [domainCommands, List.mem_cons, List.not_mem_nil, or_false, not_or] at hc
  delta handleFetch
  simp [beq_iff_eq, hc]

end CDP

namespace CDP

set_option maxHeartbeats 3200000 in
theorem handleCDPMethod_unknown (o : Oracle) (s : CDPSession) (m : String) (ps : Params)
    (h : methodDomain m ∉ knownDomains
      ∨ methodCommand m ∉ domainCommands (methodDomain m)) :
    ∃ msg, handleCDPMethod o s m ps = { s := s, res := .error msg } := by
  by_cases hB : methodDomain m = "Browser"
  · have hC : methodCommand m ∉ domainCommands "Browser" := by
      rcases h with hD | hC
      · exact absurd (by rw [hB]; decide) hD
      · rwa [hB] at hC
    refine ⟨"Unknown Browser method: " ++ methodCommand m, ?_⟩
    delta handleCDPMethod
    simp [hB, handleBrowser_unknown s (methodCommand m) ps hC]
  · by_cases hT : methodDomain m = "Target"
    · have hC : methodCommand m ∉ domainCommands "Target" := by
        rcases h with hD | hC
        · exact absurd (by rw [hT]; decide) hD
        · rwa [hT] at hC
      refine ⟨"Unknown Target method: " ++ methodCommand m, ?_⟩
      delta handleCDPMethod
      simp [hT, handleTarget_unknown o s (methodCommand m) ps hC]
    · by_cases hP : methodDomain m = "Page"
      · have hC : methodCommand m ∉ domainCommands "Page" := by
          rcases h with hD | hC
          · exact absurd (by rw [hP]; decide) hD
          · rwa [hP] at hC
        cases hpg : mlookup s.pages (resolveTargetId s ps) with
        | none =>
          refine ⟨"Target not found: " ++ resolveTargetId s ps, ?_⟩
          delta handleCDPMethod
          simp [hP, hpg, jsIfSome]
        | some u =>
          refine ⟨"Unknown Page method: " ++ methodCommand m, ?_⟩
          delta handleCDPMethod
          simp [hP, hpg, jsIfSome, handlePage_unknown o s (methodCommand m) ps hC]
      · by_cases hR : methodDomain m = "Runtime"
        · have hC : methodCommand m ∉ domainCommands "Runtime" := by
            rcases h with hD | hC
            · exact absurd (by rw [hR]; decide) hD
            · rwa [hR] at hC
          cases hpg : mlookup s.pages (resolveTargetId s ps) with
          | none =>
            refine ⟨"Target not found: " ++ resolveTargetId s ps, ?_⟩
            delta handleCDPMethod
            simp [hR, hpg, jsIfSome]
          | some u =>
            refine ⟨"Unknown Runtime method: " ++ methodCommand m, ?_⟩
            delta handleCDPMethod
            simp [hR, hpg, jsIfSome, handleRuntime_unknown o s (methodCommand m) ps hC]
        · by_cases hDm : methodDomain m = "DOM"
          · have hC : methodCommand m ∉ domainCommands "DOM" := by
              rcases h with hD | hC
              · exact absurd (by rw [hDm]; decide) hD
              · rwa [hDm] at hC
            cases hpg : mlookup s.pages (resolveTargetId s ps) with
            | none =>
              refine ⟨"Target not found: " ++ resolveTargetId s ps, ?_⟩
              delta handleCDPMethod
              simp [hDm, hpg, jsIfSome]
            | some u =>
              refine ⟨"Unknown DOM method: " ++ methodCommand m, ?_⟩
              delta handleCDPMethod
              simp [hDm, hpg, jsIfSome, handleDOM_unknown o s (methodCommand m) ps hC]
          · by_cases hI : methodDomain m = "Input"
            · have hC : methodCommand m ∉ domainCommands "Input" := by
                rcases h with hD | hC
                · exact absurd (by rw [hI]; decide) hD
                · rwa [hI] at hC
              cases hpg : mlookup s.pages (resolveTargetId s ps) with
              | none =>
                refine ⟨"Target not found: " ++ resolveTargetId s ps, ?_⟩
                delta handleCDPMethod
                simp [hI, hpg, jsIfSome]
              | some u =>
                refine ⟨"Unknown Input method: " ++ methodCommand m, ?_⟩
                delta handleCDPMethod
                simp [hI, hpg, jsIfSome, handleInput_unknown s (methodCommand m) ps hC]
            · by_cases hN : methodDomain m = "Network"
              · have hC : methodCommand m ∉ domainCommands "Network" := by
                  rcases h with hD | hC
                  · exact absurd (by rw [hN]; decide) hD
                  · rwa [hN] at hC
                refine ⟨"Unknown Network method: " ++ methodCommand m, ?_⟩
                delta handleCDPMethod
                simp [hN, handleNetwork_unknown s (mlookup s.pages (resolveTargetId s ps))
                  (methodCommand m) ps hC]
              · by_cases hE : methodDomain m = "Emulation"
                · have hC : methodCommand m ∉ domainCommands "Emulation" := by
                    rcases h with hD | hC
                    · exact absurd (by rw [hE]; decide) hD
                    · rwa [hE] at hC
                  cases hpg : mlookup s.pages (resolveTargetId s ps) with
                  | none =>
                    refine ⟨"Target not found: " ++ resolveTargetId s ps, ?_⟩
                    delta handleCDPMethod
                    simp [hE, hpg, jsIfSome]
                  | some u =>
                    refine ⟨"Unknown Emulation method: " ++ methodCommand m, ?_⟩
                    delta handleCDPMethod
                    simp [hE, hpg, jsIfSome, handleEmulation_unknown s (methodCommand m) ps hC]
                · by_cases hF : methodDomain m = "Fetch"
                  · have hC : methodCommand m ∉ domainCommands "Fetch" := by
                      rcases h with hD | hC
                      · exact absurd (by rw [hF]; decide) hD
                      · rwa [hF] at hC
                    cases hpg : mlookup s.pages (resolveTargetId s ps) with
                    | none =>
                      refine ⟨"Target not found: " ++ resolveTargetId s ps, ?_⟩
                      delta handleCDPMethod
                      simp [hF, hpg, jsIfSome]
                    | some u =>
                      refine ⟨"Unknown Fetch method: " ++ methodCommand m, ?_⟩
                      delta handleCDPMethod
                      simp [hF, hpg, jsIfSome, handleFetch_unknown s (methodCommand m) ps hC]
                  · refine ⟨"Unknown domain: " ++ methodDomain m, ?_⟩
                    delta handleCDPMethod
                    simp [beq_iff_eq, hB, hT, hP, hR, hDm, hI, hN, hE, hF]

/-- Reduce `processMessage` to the dispatcher output (frames, `ok` case). -/
theorem processMessage_frames_ok (o : Oracle) (s : CDPSession) (req : CDPRequest)
    (r : CDPResult) (hr : (handleCDPMethod o s req.method req.params).res = Except.ok r) :
    (processMessage o s (some req)).frames
      = (handleCDPMethod o s req.method req.params).events.map
          (fun e => Frame.event e.1 e.2) ++ [Frame.response req.id r] := by
  unfold processMessage
  simp [hr]

/-- Reduce `processMessage` to the dispatcher output (frames, `error` case). -/
theorem processMessage_frames_error (o : Oracle) (s : CDPSession) (req : CDPRequest)
    (msg : String) (hr : (handleCDPMethod o s req.method req.params).res = Except.error msg) :
    (processMessage o s (some req)).frames
      = (handleCDPMethod o s req.method req.params).events.map
          (fun e => Frame.event e.1 e.2) ++ [Frame.error req.id (-32000) msg] := by
  unfold processMessage
  simp [hr]

theorem processMessage_ops (o : Oracle) (s : CDPSession) (req : CDPRequest) :
    (processMessage o s (some req)).ops = (handleCDPMethod o s req.method req.params).ops := by
  unfold processMessage
  cases hres : (handleCDPMethod o s req.method req.params).res with
  | ok r => simp [hres]
  | error msg => simp [hres]

theorem handleCDPMethod_Page (o : Oracle) (s : CDPSession) (m : String) (ps : Params)
    (hd : methodDomain m = "Page")
    (hpg : mlookup s.pages (resolveTargetId s ps) = some ()) :
    handleCDPMethod o s m ps = handlePage o s (methodCommand m) ps := by
  delta handleCDPMethod
  simp [hd, hpg, jsIfSome]

theorem handleCDPMethod_Runtime (o : Oracle) (s : CDPSession) (m : String) (ps : Params)
    (hd : methodDomain m = "Runtime")
    (hpg : mlookup s.pages (resolveTargetId s ps) = some ()) :
    handleCDPMethod o s m ps = handleRuntime o s (methodCommand m) ps := by
  delta handleCDPMethod
  simp [hd, hpg, jsIfSome]

theorem handleCDPMethod_DOM (o : Oracle) (s : CDPSession) (m : String) (ps : Params)
    (hd : methodDomain m = "DOM")
    (hpg : mlookup s.pages (resolveTargetId s ps) = some ()) :
    handleCDPMethod o s m ps = handleDOM o s (methodCommand m) ps := by
  delta handleCDPMethod
  simp [hd, hpg, jsIfSome]

theorem handleCDPMethod_Fetch (o : Oracle) (s : CDPSession) (m : String) (ps : Params)
    (hd : methodDomain m = "Fetch")
    (hpg : mlookup s.pages (resolveTargetId s ps) = some ()) :
    handleCDPMethod o s m ps = handleFetch s (methodCommand m) ps := by
  delta handleCDPMethod
  simp [hd, hpg, jsIfSome]

theorem initSession_pages_self (t0 : String) :
    mlookup (initSession t0).pages t0 = some () := by
  simp [initSession, mlookup, List.lookup]

end CDP

namespace CDP

/-!
## Claims
-/

/-- A session state reachable from construction by processing inbound
messages. -/
def Reachable (s : CDPSession) : Prop :=
  ∃ t0 msgs, (runSession (initSession t0) msgs).1 = s

theorem reachable_good (s : CDPSession) (h : Reachable s) :
    1 ≤ s.nodeIdCounter ∧ ∀ q ∈ s.nodeMap, 1 ≤ q.1 := by
  obtain ⟨t0, msgs, rfl⟩ := h
  obtain ⟨h1, -, -, -, -, h6⟩ := runSession_spec msgs (initSession t0) (Nat.le_refl _)
  refine ⟨h1, fun q hq => ?_⟩
  rcases h6 q hq with hnil | hwin
  · exact absurd hnil (List.not_mem_nil q)
  · exact hwin.1

/-- C2: within one session, the node ids handed out by any sequence of
commands form exactly the initial segment of the counter values starting at
1, so they are strictly increasing (pairwise) and never repeat; likewise the
object ids are exactly `obj-1`, `obj-2`, … in order and never repeat, even
after `DOM.removeNode`, `Runtime.releaseObject` or
`Runtime.releaseObjectGroup` delete entries. -/
theorem claim_C2 (t0 : String) (msgs : List (Oracle × Option CDPRequest)) :
    (∃ k, collectNodeIds (runSession (initSession t0) msgs).2 = List.range' 1 k) ∧
    List.Pairwise (· < ·) (collectNodeIds (runSession (initSession t0) msgs).2) ∧
    (collectNodeIds (runSession (initSession t0) msgs).2).Nodup ∧
    (∃ k, collectObjIds (runSession (initSession t0) msgs).2
      = (List.range' 1 k).map objIdStr) ∧
    (collectObjIds (runSession (initSession t0) msgs).2).Nodup := by
  obtain ⟨-, -, h3, h4, -, -⟩ := runSession_spec msgs (initSession t0) (Nat.le_refl _)
  refine ⟨⟨_, h3⟩, ?_, ?_, ⟨_, h4⟩, ?_⟩
  · rw [h3]; exact List.pairwise_lt_range' _ _
  · rw [h3]; exact List.nodup_range' _ _
  · rw [h4]; exact List.Nodup.map objIdStr_injective (List.nodup_range' _ _)

/-- Request literal: `Target.closeTarget` aimed at target id `tid`. -/
def reqClose (tid : String) : CDPRequest :=
  { id := 1, method := "Target.closeTarget", params := { targetId := some tid } }

/-- Request literal: `DOM.querySelector` for selector `sel`. -/
def reqQS (i : Int) (sel : String) : CDPRequest :=
  { id := i, method := "DOM.querySelector", params := { selector := some sel } }

/-- Request literal: `DOM.getOuterHTML` on node id 0. -/
def reqOH (i : Int) : CDPRequest :=
  { id := i, method := "DOM.getOuterHTML", params := { nodeId := some 0 } }

/-- C1 counterexample: a `Target.closeTarget` addressed at the default
target id evicts the default target from the session's target map and
answers with a success response (the connection is not torn down), refuting
the claim that no command removes the default target. -/
theorem claim_C1_counterexample :
    mlookup (processMessage {} (initSession "t0") (some (reqClose "t0"))).s.pages "t0"
      = none ∧
    (processMessage {} (initSession "t0") (some (reqClose "t0"))).frames
      = [.event "Target.targetDestroyed" (.targetDestroyed "t0"),
         .response 1 (.success true)] := by
  constructor <;> rfl

/-- C1 (amended): the default target stays present in the session's target
map, and the default target id is never reassigned, under any sequence of
commands that does not include a `Target.closeTarget` addressed at the
default target id itself; in particular closing non-default targets never
evicts it. -/
theorem claim_C1 (t0 : String) (msgs : List (Oracle × Option CDPRequest))
    (h : ∀ om ∈ msgs, isCloseTargetOn t0 om.2 = false) :
    mlookup (runSession (initSession t0) msgs).1.pages t0 = some () ∧
    (runSession (initSession t0) msgs).1.defaultTargetId = t0 := by
  constructor
  · exact runSession_pages msgs (initSession t0) t0 (initSession_pages_self t0) h
  · exact (runSession_spec msgs (initSession t0) (Nat.le_refl _)).2.2.2.2.1

theorem claim_C1_witness :
    mlookup (runSession (initSession "t0")
      [({}, some (reqClose "other"))]).1.pages "t0" = some () :=
  (claim_C1 "t0" [({}, some (reqClose "other"))] (by decide)).1

/-- C4: in any reachable session state with a live default page,
`DOM.querySelector` on a selector with no match answers node id 0 without
touching the session (the counter starting at 1 means 0 is never allocated),
and a later `DOM.getOuterHTML` on node id 0 misses the node map and falls
back to the full page HTML rather than erroring. -/
theorem claim_C4 (s : CDPSession) (o o2 : Oracle) (id1 id2 : Int) (sel : String)
    (hreach : Reachable s)
    (hpage : mlookup s.pages s.defaultTargetId = some ())
    (hsel : sel ≠ "")
    (hnf : o.qsFound sel = false) :
    (processMessage o s (some (reqQS id1 sel))).frames
      = [.response id1 (.nodeId 0)] ∧
    (processMessage o s (some (reqQS id1 sel))).s = s ∧
    (processMessage o2 s (some (reqOH id2))).frames
      = [.response id2 (.outerHTML o2.pageContent)] := by
  have e1 : (reqQS id1 sel).method = "DOM.querySelector" := rfl
  have e2 : (reqQS id1 sel).params = { selector := some sel } := rfl
  have e3 : (reqQS id1 sel).id = id1 := rfl
  have f1 : (reqOH id2).method = "DOM.getOuterHTML" := rfl
  have f2 : (reqOH id2).params = { nodeId := some 0 } := rfl
  have f3 : (reqOH id2).id = id2 := rfl
  have hrt : resolveTargetId s { selector := some sel } = s.defaultTargetId := by
    simp [resolveTargetId, truthy?]
  have hrt2 : resolveTargetId s { nodeId := some 0 } = s.defaultTargetId := by
    simp [resolveTargetId, truthy?]
  have hsel' : (sel == "") = false := by simp [hsel]
  have hh := handleCDPMethod_DOM o s "DOM.querySelector" { selector := some sel }
    rfl (by rw [hrt]; exact hpage)
  rw [show methodCommand "DOM.querySelector" = "querySelector" from rfl] at hh
  have hq : handleDOM o s "querySelector" { selector := some sel }
      = { s := s, ops := [.pageOp], res := .ok (.nodeId 0) } := by
    delta handleDOM
    simp [truthy?, hsel', hnf]
  have h0 : mlookup s.nodeMap 0 = none :=
    mlookup_none_of_keys_pos s.nodeMap (reachable_good s hreach).2
  have hh2 := handleCDPMethod_DOM o2 s "DOM.getOuterHTML" { nodeId := some 0 }
    rfl (by rw [hrt2]; exact hpage)
  rw [show methodCommand "DOM.getOuterHTML" = "getOuterHTML" from rfl] at hh2
  have hq2 : handleDOM o2 s "getOuterHTML" { nodeId := some 0 }
      = { s := s, ops := [.pageOp], res := .ok (.outerHTML o2.pageContent) } := by
    delta handleDOM
    simp [truthy?, h0, jsIfSome]
  refine ⟨?_, ?_, ?_⟩
  · rw [processMessage_frames_ok o s _ (.nodeId 0) (by rw [e1, e2, hh, hq])]
    rw [e1, e2, e3, hh, hq]
    rfl
  · rw [processMessage_s_eq, e1, e2, hh, hq]
  · rw [processMessage_frames_ok o2 s _ (.outerHTML o2.pageContent)
      (by rw [f1, f2, hh2, hq2])]
    rw [f1, f2, f3, hh2, hq2]
    rfl

theorem claim_C4_witness :
    Reachable (initSession "t0") ∧
    (processMessage {} (initSession "t0") (some (reqQS 1 "div"))).frames
      = [.response 1 (.nodeId 0)] :=
  ⟨⟨"t0", [], rfl⟩,
   (claim_C4 (initSession "t0") {} {} 1 2 "div" ⟨"t0", [], rfl⟩
     (initSession_pages_self "t0") (by decide) rfl).1⟩

/-- Request literal with arbitrary id, method and params. -/
def mkReq (i : Int) (m : String) (ps : Params) : CDPRequest :=
  { id := i, method := m, params := ps }

theorem upgradeCheck_none (p : Option String) (b : Bool) :
    upgradeCheck p none b = .notConfigured := by
  simp [upgradeCheck, truthy?]

theorem upgradeCheck_empty (p : Option String) (b : Bool) :
    upgradeCheck p (some "") b = .notConfigured := by
  simp [upgradeCheck, truthy?]

theorem upgradeCheck_unauthorized (p : Option String) (e : String) (b : Bool)
    (he : e ≠ "") (hp : p ≠ some e) :
    upgradeCheck p (some e) b = .unauthorized := by
  have h1 : truthy? (some e) = true := by simp [truthy?, he]
  unfold upgradeCheck
  cases p with
  | none => simp [truthy?, h1, he]
  | some x =>
    by_cases hx : x = ""
    · subst hx; simp [truthy?, h1, he]
    · have h2 : truthy? (some x) = true := by simp [truthy?, hx]
      have h3 : timingSafeEqual x e = false := by
        cases hts : timingSafeEqual x e
        · rfl
        · exact absurd (by rw [(timingSafeEqual_iff x e).mp hts]) hp
      simp [h1, h2, h3]

theorem upgradeCheck_accepted_of (e : String) (he : e ≠ "") :
    upgradeCheck (some e) (some e) true = .accepted := by
  have h1 : truthy? (some e) = true := by simp [truthy?, he]
  have h2 : timingSafeEqual e e = true := (timingSafeEqual_iff e e).mpr rfl
  simp [upgradeCheck, h1, h2]

/-- C7: the upgrade secret check accepts exactly when the provided secret is
character-for-character the configured one (so any mismatch is a 401
`unauthorized`), a missing or empty configured secret gives the distinct 503
`notConfigured` outcome, and the comparison loop's iteration count depends
only on the operand lengths, never on the position of the first differing
character (constant-time). -/
theorem claim_C7 (p : Option String) (e : String) (b : Bool) (x y x2 y2 : String) :
    (upgradeCheck p (some e) true = .accepted ↔ e ≠ "" ∧ p = some e) ∧
    upgradeCheck p none b = .notConfigured ∧
    upgradeCheck p (some "") b = .notConfigured ∧
    (e ≠ "" → p ≠ some e → upgradeCheck p (some e) b = .unauthorized) ∧
    (x.length = x2.length → y.length = y2.length →
      tseIterations x y = tseIterations x2 y2) := by
  refine ⟨?_, upgradeCheck_none p b, upgradeCheck_empty p b,
    fun he hp => upgradeCheck_unauthorized p e b he hp,
    fun hx hy => tseIterations_const x y x2 y2 hx hy⟩
  constructor
  · intro hacc
    by_cases he : e = ""
    · subst he
      rw [upgradeCheck_empty p true] at hacc
      exact absurd hacc (by decide)
    · by_cases hp : p = some e
      · exact ⟨he, hp⟩
      · rw [upgradeCheck_unauthorized p e true he hp] at hacc
        exact absurd hacc (by decide)
  · rintro ⟨he, rfl⟩
    exact upgradeCheck_accepted_of e he

theorem claim_C7_witness :
    upgradeCheck (some "s3cret") (some "s3cret") true = .accepted ∧
    upgradeCheck (some "wrong") (some "s3cret") true = .unauthorized ∧
    upgradeCheck (some "s3cret") none true = .notConfigured ∧
    tseIterations "abcd" "wxyz" = tseIterations "mnop" "qrst" := by
  refine ⟨?_, ?_, ?_, ?_⟩
  · exact (claim_C7 (some "s3cret") "s3cret" true "" "" "" "").1.mpr ⟨by decide, rfl⟩
  · exact (claim_C7 (some "wrong") "s3cret" true "" "" "" "").2.2.2.1 (by decide) (by decide)
  · exact (claim_C7 (some "s3cret") "x" true "" "" "" "").2.1
  · exact (claim_C7 none "x" true "abcd" "wxyz" "mnop" "qrst").2.2.2.2 rfl rfl

/-- C8: a frame whose method names an unknown domain, or an unknown command
of a known domain, is answered with a single error frame carrying the
request's id (code -32000), while an inbound text that fails to parse as
JSON produces no outbound frame at all and leaves the session running. -/
theorem claim_C8 (o : Oracle) (s : CDPSession) (reqid : Int) (m : String) (ps : Params) :
    (processMessage o s none).frames = [] ∧
    (processMessage o s none).s = s ∧
    ((methodDomain m ∉ knownDomains
        ∨ methodCommand m ∉ domainCommands (methodDomain m)) →
      ∃ msg, (processMessage o s (some (mkReq reqid m ps))).frames
          = [Frame.error reqid (-32000) msg]
        ∧ (processMessage o s (some (mkReq reqid m ps))).s = s) := by
  refine ⟨rfl, rfl, fun h => ?_⟩
  obtain ⟨msg, hmsg⟩ := handleCDPMethod_unknown o s m ps h
  have e1 : (mkReq reqid m ps).method = m := rfl
  have e2 : (mkReq reqid m ps).params = ps := rfl
  have e3 : (mkReq reqid m ps).id = reqid := rfl
  refine ⟨msg, ?_, ?_⟩
  · rw [processMessage_frames_error o s _ msg (by rw [e1, e2, hmsg])]
    rw [e1, e2, e3, hmsg]
    rfl
  · rw [processMessage_s_eq, e1, e2, hmsg]

theorem claim_C8_witness :
    (processMessage ({} : Oracle) (initSession "t0") none).frames = [] ∧
    ∃ msg, (processMessage {} (initSession "t0")
        (some (mkReq 7 "Bogus.command" {}))).frames
        = [Frame.error 7 (-32000) msg]
      ∧ (processMessage {} (initSession "t0")
          (some (mkReq 7 "Bogus.command" {}))).s = initSession "t0" :=
  ⟨(claim_C8 {} (initSession "t0") 7 "Bogus.command" {}).1,
   (claim_C8 {} (initSession "t0") 7 "Bogus.command" {}).2.2 (by decide)⟩

/-- Params literal for the three resolving Fetch commands: a request id and
an error reason (the latter only read by `failRequest`). -/
def psFetch (rid : String) : Params :=
  { requestId := some rid, errorReason := some "failed" }

/-- A session with one parked intercepted request `r1`. -/
def sC3 : CDPSession :=
  { initSession "t0" with pendingRequests := [("r1", { url := "u", method := "GET" })] }

/-- C3: the first `Fetch.continueRequest` / `fulfillRequest` / `failRequest`
on a parked request id removes it from the pending map and succeeds; on a
request id not (or no longer) in the pending map, the same commands answer a
`Request not found` error frame carrying the inbound id, leaving the session
state untouched rather than closing it. -/
theorem claim_C3 (o : Oracle) (s : CDPSession) (i : Int) (rid : String)
    (pk : ParkedRequest) (c : String)
    (hc : c = "continueRequest" ∨ c = "fulfillRequest" ∨ c = "failRequest") :
    (mlookup s.pendingRequests rid = some pk →
      mlookup (handleFetch s c (psFetch rid)).s.pendingRequests rid = none
        ∧ (handleFetch s c (psFetch rid)).res = .ok .empty) ∧
    (mlookup s.pendingRequests rid = none →
      handleFetch s c (psFetch rid)
        = { s := s, res := .error ("Request not found: " ++ rid) }) ∧
    (mlookup s.pendingRequests rid = none →
      mlookup s.pages s.defaultTargetId = some () →
      (processMessage o s (some (mkReq i ("Fetch." ++ c) (psFetch rid)))).frames
          = [.error i (-32000) ("Request not found: " ++ rid)]
        ∧ (processMessage o s (some (mkReq i ("Fetch." ++ c) (psFetch rid)))).s = s) := by
  have hrt : resolveTargetId s (psFetch rid) = s.defaultTargetId := by
    simp [resolveTargetId, psFetch, truthy?]
  rcases hc with rfl | rfl | rfl
  · refine ⟨fun hp => ?_, fun hn => ?_, fun hn hpg => ?_⟩
    · delta handleFetch
      simp [psFetch, hp, jsIfSome, truthy?, mlookup_mdelete_self]
    · delta handleFetch
      simp [psFetch, hn, jsIfSome]
    · have hq : handleFetch s "continueRequest" (psFetch rid)
          = { s := s, res := .error ("Request not found: " ++ rid) } := by
        delta handleFetch
        simp [psFetch, hn, jsIfSome]
      have hh := handleCDPMethod_Fetch o s "Fetch.continueRequest" (psFetch rid)
        rfl (by rw [hrt]; exact hpg)
      rw [show methodCommand "Fetch.continueRequest" = "continueRequest" from rfl] at hh
      have e1 : (mkReq i ("Fetch." ++ "continueRequest") (psFetch rid)).method = "Fetch.continueRequest" := rfl
      have e2 : (mkReq i ("Fetch." ++ "continueRequest") (psFetch rid)).params = psFetch rid := rfl
      have e3 : (mkReq i ("Fetch." ++ "continueRequest") (psFetch rid)).id = i := rfl
      constructor
      · rw [processMessage_frames_error o s _ ("Request not found: " ++ rid)
          (by rw [e1, e2, hh, hq])]
        rw [e1, e2, e3, hh, hq]
        rfl
      · rw [processMessage_s_eq, e1, e2, hh, hq]
  · refine ⟨fun hp => ?_, fun hn => ?_, fun hn hpg => ?_⟩
    · delta handleFetch
      simp [psFetch, hp, jsIfSome, truthy?, mlookup_mdelete_self]
    · delta handleFetch
      simp [psFetch, hn, jsIfSome]
    · have hq : handleFetch s "fulfillRequest" (psFetch rid)
          = { s := s, res := .error ("Request not found: " ++ rid) } := by
        delta handleFetch
        simp [psFetch, hn, jsIfSome]
      have hh := handleCDPMethod_Fetch o s "Fetch.fulfillRequest" (psFetch rid)
        rfl (by rw [hrt]; exact hpg)
      rw [show methodCommand "Fetch.fulfillRequest" = "fulfillRequest" from rfl] at hh
      have e1 : (mkReq i ("Fetch." ++ "fulfillRequest") (psFetch rid)).method = "Fetch.fulfillRequest" := rfl
      have e2 : (mkReq i ("Fetch." ++ "fulfillRequest") (psFetch rid)).params = psFetch rid := rfl
      have e3 : (mkReq i ("Fetch." ++ "fulfillRequest") (psFetch rid)).id = i := rfl
      constructor
      · rw [processMessage_frames_error o s _ ("Request not found: " ++ rid)
          (by rw [e1, e2, hh, hq])]
        rw [e1, e2, e3, hh, hq]
        rfl
      · rw [processMessage_s_eq, e1, e2, hh, hq]
  · refine ⟨fun hp => ?_, fun hn => ?_, fun hn hpg => ?_⟩
    · delta handleFetch
      simp [psFetch, hp, jsIfSome, truthy?, mlookup_mdelete_self]
    · delta handleFetch
      simp [psFetch, hn, jsIfSome]
    · have hq : handleFetch s "failRequest" (psFetch rid)
          = { s := s, res := .error ("Request not found: " ++ rid) } := by
        delta handleFetch
        simp [psFetch, hn, jsIfSome]
      have hh := handleCDPMethod_Fetch o s "Fetch.failRequest" (psFetch rid)
        rfl (by rw [hrt]; exact hpg)
      rw [show methodCommand "Fetch.failRequest" = "failRequest" from rfl] at hh
      have e1 : (mkReq i ("Fetch." ++ "failRequest") (psFetch rid)).method = "Fetch.failRequest" := rfl
      have e2 : (mkReq i ("Fetch." ++ "failRequest") (psFetch rid)).params = psFetch rid := rfl
      have e3 : (mkReq i ("Fetch." ++ "failRequest") (psFetch rid)).id = i := rfl
      constructor
      · rw [processMessage_frames_error o s _ ("Request not found: " ++ rid)
          (by rw [e1, e2, hh, hq])]
        rw [e1, e2, e3, hh, hq]
        rfl
      · rw [processMessage_s_eq, e1, e2, hh, hq]

theorem claim_C3_witness :
    (mlookup (handleFetch sC3 "failRequest" (psFetch "r1")).s.pendingRequests "r1" = none
      ∧ (handleFetch sC3 "failRequest" (psFetch "r1")).res = .ok .empty) ∧
    (processMessage {} sC3
        (some (mkReq 5 ("Fetch." ++ "continueRequest") (psFetch "zz")))).frames
      = [.error 5 (-32000) ("Request not found: " ++ "zz")] :=
  ⟨(claim_C3 {} sC3 5 "r1" { url := "u", method := "GET" } "failRequest"
      (Or.inr (Or.inr rfl))).1 rfl,
   ((claim_C3 {} sC3 5 "zz" { url := "u", method := "GET" } "continueRequest"
      (Or.inl rfl)).2.2 rfl rfl).1⟩

/-- Params literal: a bare object id. -/
def psOid (oid : String) : Params := { objectId := some oid }

/-- C5: `Runtime.releaseObjectGroup` empties the whole object map whatever
its parameters are and succeeds; on the emptied session, `Runtime.getProperties`
for any object id (in particular any id that was valid before the release)
answers a successful empty property list, not an error frame. -/
theorem claim_C5 (o o2 : Oracle) (s : CDPSession) (ps : Params) (oid : String) :
    (handleRuntime o s "releaseObjectGroup" ps).s = { s with objectMap := [] } ∧
    (handleRuntime o s "releaseObjectGroup" ps).res = .ok .empty ∧
    handleRuntime o2 (handleRuntime o s "releaseObjectGroup" ps).s
        "getProperties" (psOid oid)
      = { s := (handleRuntime o s "releaseObjectGroup" ps).s
          res := .ok (.properties []) } := by
  have h1 : handleRuntime o s "releaseObjectGroup" ps
      = { s := { s with objectMap := [] }, res := .ok .empty } := by
    delta handleRuntime
    simp
  refine ⟨by rw [h1], by rw [h1], ?_⟩
  rw [h1]
  delta handleRuntime
  simp [psOid, jsIfSome, mlookup, List.lookup]

/-- Params literal for `Runtime.evaluate`. -/
def psEval (expr : String) : Params := { expression := some expr }

/-- Params literal for `Runtime.callFunctionOn`. -/
def psCall (fn : String) : Params := { functionDeclaration := some fn }

/-- C6: when the in-page execution of `Runtime.evaluate` or
`Runtime.callFunctionOn` throws, the shim answers a successful response frame
carrying the request id and `exceptionDetails` with the thrown message — never
a CDP error frame — and the session state is unchanged, so the connection
stays alive. -/
theorem claim_C6 (o o2 : Oracle) (s : CDPSession) (i j : Int)
    (expr fn msg msg2 : String)
    (hpg : mlookup s.pages s.defaultTargetId = some ())
    (he : expr ≠ "")
    (hthrow : ∀ e, o.evalOutcome e = .threw msg)
    (hcall : ∀ f as, o2.callOutcome f as = .threw msg2) :
    (processMessage o s (some (mkReq i "Runtime.evaluate" (psEval expr)))).frames
        = [.response i (.exceptionDetails 1 msg)] ∧
    (processMessage o s (some (mkReq i "Runtime.evaluate" (psEval expr)))).s = s ∧
    (processMessage o2 s (some (mkReq j "Runtime.callFunctionOn" (psCall fn)))).frames
        = [.response j (.exceptionDetails 1 msg2)] ∧
    (processMessage o2 s (some (mkReq j "Runtime.callFunctionOn" (psCall fn)))).s = s := by
  have hrt : resolveTargetId s (psEval expr) = s.defaultTargetId := by
    simp [resolveTargetId, psEval, truthy?]
  have hrt2 : resolveTargetId s (psCall fn) = s.defaultTargetId := by
    simp [resolveTargetId, psCall, truthy?]
  have hh := handleCDPMethod_Runtime o s "Runtime.evaluate" (psEval expr)
    rfl (by rw [hrt]; exact hpg)
  rw [show methodCommand "Runtime.evaluate" = "evaluate" from rfl] at hh
  have hq : handleRuntime o s "evaluate" (psEval expr)
      = { s := s, res := .ok (.exceptionDetails 1 msg) } := by
    delta handleRuntime
    simp [psEval, truthy?, he, hthrow, evalCase]
  have hh2 := handleCDPMethod_Runtime o2 s "Runtime.callFunctionOn" (psCall fn)
    rfl (by rw [hrt2]; exact hpg)
  rw [show methodCommand "Runtime.callFunctionOn" = "callFunctionOn" from rfl] at hh2
  have hq2 : handleRuntime o2 s "callFunctionOn" (psCall fn)
      = { s := s, res := .ok (.exceptionDetails 1 msg2) } := by
    delta handleRuntime
    simp [psCall, truthy?, hcall, evalCase]
  have e1 : (mkReq i "Runtime.evaluate" (psEval expr)).method = "Runtime.evaluate" := rfl
  have e2 : (mkReq i "Runtime.evaluate" (psEval expr)).params = psEval expr := rfl
  have e3 : (mkReq i "Runtime.evaluate" (psEval expr)).id = i := rfl
  have f1 : (mkReq j "Runtime.callFunctionOn" (psCall fn)).method = "Runtime.callFunctionOn" := rfl
  have f2 : (mkReq j "Runtime.callFunctionOn" (psCall fn)).params = psCall fn := rfl
  have f3 : (mkReq j "Runtime.callFunctionOn" (psCall fn)).id = j := rfl
  refine ⟨?_, ?_, ?_, ?_⟩
  · rw [processMessage_frames_ok o s _ (.exceptionDetails 1 msg) (by rw [e1, e2, hh, hq])]
    rw [e1, e2, e3, hh, hq]
    rfl
  · rw [processMessage_s_eq, e1, e2, hh, hq]
  · rw [processMessage_frames_ok o2 s _ (.exceptionDetails 1 msg2)
      (by rw [f1, f2, hh2, hq2])]
    rw [f1, f2, f3, hh2, hq2]
    rfl
  · rw [processMessage_s_eq, f1, f2, hh2, hq2]

/-- A backend whose every evaluation throws `boom`. -/
def oThrow : Oracle :=
  { evalOutcome := fun _ => .threw "boom", callOutcome := fun _ _ => .threw "boom" }

theorem claim_C6_witness :
    (processMessage oThrow (initSession "t0")
        (some (mkReq 1 "Runtime.evaluate" (psEval "1+1")))).frames
      = [.response 1 (.exceptionDetails 1 "boom")] ∧
    (processMessage oThrow (initSession "t0")
        (some (mkReq 2 "Runtime.callFunctionOn" (psCall "f")))).frames
      = [.response 2 (.exceptionDetails 1 "boom")] := by
  have h := claim_C6 oThrow oThrow (initSession "t0") 1 2 "1+1" "f" "boom" "boom"
    (initSession_pages_self "t0") (by decide) (fun e => rfl) (fun f as => rfl)
  exact ⟨h.1, h.2.2.1⟩

/-- Params literal for `Fetch.failRequest`: a request id and an error
reason. -/
def psFail (rid er : String) : Params :=
  { requestId := some rid, errorReason := some er }

/-- C9 counterexample: the keyword chain of `mapAbortReason` tests `access`
before `timeout`, so the reason `AccessTimeout` — whose lowercase form does
contain `timeout` — maps to `accessdenied`, not to the claimed `timedout`. -/
theorem claim_C9_counterexample :
    strContains (strLower "AccessTimeout") "timeout" = true ∧
    mapAbortReason "AccessTimeout" = "accessdenied" :=
  ⟨rfl, rfl⟩

/-- C9 (amended): `Fetch.failRequest` on a parked request aborts it with
`mapAbortReason errorReason` and removes it from the pending map; the
lowercase reason maps to `timedout` when it contains `timeout` but none of
the earlier keywords `access`, `address`, `blocked`, `connection` (which take
precedence in that order), and to the generic `failed` when it contains none
of the five keywords. -/
theorem claim_C9 (s : CDPSession) (rid er : String) (pk : ParkedRequest)
    (hp : mlookup s.pendingRequests rid = some pk) :
    (strContains (strLower er) "access" = false →
     strContains (strLower er) "address" = false →
     strContains (strLower er) "blocked" = false →
     strContains (strLower er) "connection" = false →
     strContains (strLower er) "timeout" = true →
      mapAbortReason er = "timedout") ∧
    (strContains (strLower er) "access" = false →
     strContains (strLower er) "address" = false →
     strContains (strLower er) "blocked" = false →
     strContains (strLower er) "connection" = false →
     strContains (strLower er) "timeout" = false →
      mapAbortReason er = "failed") ∧
    (handleFetch s "failRequest" (psFail rid er)).ops
      = [.abort rid (mapAbortReason er)] ∧
    mlookup (handleFetch s "failRequest" (psFail rid er)).s.pendingRequests rid = none ∧
    (handleFetch s "failRequest" (psFail rid er)).res = .ok .empty := by
  refine ⟨fun h1 h2 h3 h4 h5 => ?_, fun h1 h2 h3 h4 h5 => ?_, ?_, ?_, ?_⟩
  · simp [mapAbortReason, h1, h2, h3, h4, h5]
  · simp [mapAbortReason, h1, h2, h3, h4, h5]
  · delta handleFetch
    simp [psFail, hp, jsIfSome, truthy?]
  · delta handleFetch
    simp [psFail, hp, jsIfSome, truthy?, mlookup_mdelete_self]
  · delta handleFetch
    simp [psFail, hp, jsIfSome, truthy?]

theorem claim_C9_witness :
    mapAbortReason "Timeout" = "timedout" ∧
    mapAbortReason "weird" = "failed" ∧
    (handleFetch sC3 "failRequest" (psFail "r1" "Timeout")).ops
      = [.abort "r1" (mapAbortReason "Timeout")] ∧
    mlookup (handleFetch sC3 "failRequest" (psFail "r1" "Timeout")).s.pendingRequests "r1"
      = none := by
  have h := claim_C9 sC3 "r1" "Timeout" { url := "u", method := "GET" } rfl
  have h2 := claim_C9 sC3 "r1" "weird" { url := "u", method := "GET" } rfl
  exact ⟨h.1 rfl rfl rfl rfl rfl, h2.2.1 rfl rfl rfl rfl rfl, h.2.2.1, h.2.2.2.1⟩

/-- Params literal for `Page.navigate`. -/
def psNav (url : String) (tid : Option String) : Params :=
  { url := some url, targetId := tid }

/-- The page-navigation output of `handlePage`, for reference in C10. -/
def navHOut (o : Oracle) (s : CDPSession) (url : String) : HOut :=
  { s
    events := [("Page.frameNavigated", .frameNavigated s.defaultTargetId o.pageUrl),
               ("Page.loadEventFired", .loadEventFired)]
    ops := [.goto url]
    res := .ok (.navigate s.defaultTargetId o.uuid
      (if o.navOk then none else some "Navigation failed")) }

/-- A session with a second, non-default target `t1` next to the default
`t0`. -/
def sC10 : CDPSession :=
  { initSession "t0" with pages := [("t0", ()), ("t1", ())] }

/-- C10: `Page.navigate` stamps the session's defaultTargetId as the frameId
of both the `Page.frameNavigated` event and the response, even when
`params.targetId` addresses a different (non-default) live target, so the
reported frame id does not identify the page actually navigated unless that
page is the default one. -/
theorem claim_C10 (o : Oracle) (s : CDPSession) (i : Int) (url tid : String)
    (hu : url ≠ "")
    (htid : tid ≠ "")
    (hpg : mlookup s.pages tid = some ()) :
    (processMessage o s (some (mkReq i "Page.navigate" (psNav url (some tid))))).frames
      = [.event "Page.frameNavigated" (.frameNavigated s.defaultTargetId o.pageUrl),
         .event "Page.loadEventFired" .loadEventFired,
         .response i (.navigate s.defaultTargetId o.uuid
           (if o.navOk then none else some "Navigation failed"))] := by
  have htid' : (tid == "") = false := by simp [htid]
  have hu' : (url == "") = false := by simp [hu]
  have hrt : resolveTargetId s (psNav url (some tid)) = tid := by
    simp [resolveTargetId, psNav, truthy?, htid']
  have hh := handleCDPMethod_Page o s "Page.navigate" (psNav url (some tid))
    rfl (by rw [hrt]; exact hpg)
  rw [show methodCommand "Page.navigate" = "navigate" from rfl] at hh
  have hq : handlePage o s "navigate" (psNav url (some tid)) = navHOut o s url := by
    delta handlePage
    simp [navHOut, psNav, truthy?, hu']
  have e1 : (mkReq i "Page.navigate" (psNav url (some tid))).method = "Page.navigate" := rfl
  have e2 : (mkReq i "Page.navigate" (psNav url (some tid))).params = psNav url (some tid) := rfl
  have e3 : (mkReq i "Page.navigate" (psNav url (some tid))).id = i := rfl
  have hres : (navHOut o s url).res = Except.ok (.navigate s.defaultTargetId o.uuid
      (if o.navOk then none else some "Navigation failed")) := rfl
  rw [processMessage_frames_ok o s _ _ (by rw [e1, e2, hh, hq]; exact hres)]
  rw [e1, e2, e3, hh, hq]
  rfl

theorem claim_C10_witness :
    (processMessage {} sC10
        (some (mkReq 3 "Page.navigate" (psNav "http://e" (some "t1"))))).frames
      = [.event "Page.frameNavigated" (.frameNavigated "t0" "about:blank"),
         .event "Page.loadEventFired" .loadEventFired,
         .response 3 (.navigate "t0" "uuid" none)] := by
  have h := claim_C10 {} sC10 3 "http://e" "t1" (by decide) (by decide) rfl
  exact h

end CDP
